import Mathlib

/-!
Verification development for the dinit service-management engine
(src/service.cc) and its control utility (src/dinitctl.cc).

The engine is shallowly embedded as a state machine over `engine`, a record
holding every service record (`sstate`, one per service, addressed by its
index in `engine.svcs`), the four propagation queues, the active-service
counter and an event trace.  Each C++ member function of `service_record`
and its subclasses becomes a Lean function `engine → Nat → ... → engine`
(the `Nat` is the acting service's index), transcribed line by line from
src/src/service.cc.  Operating-system interactions (socket creation, fork,
pipe reads, waitpid, the monotonic clock) are passed in explicitly through
an `osEnv` oracle record, so that every syscall outcome the C++ code
branches on is an input of the model.  Machine integers are modelled as
`Int`/`Nat`; POSIX wait statuses use the glibc encoding on `Nat`.

The class hierarchy (service_record > base_process_service >
{process_service, bgproc_service, scripted_service}) is flattened into a
single record type with a `record_type` tag; virtual dispatch becomes a
`match` on the tag, exactly mirroring which override each concrete class
uses in the source.

Declarations that transcribe code living in headers that are not part of
this repository snapshot (service.h, dinit.cc) are modelled from the
specification and say so in their doc comments.
-/

namespace Dinit

/-- Service lifecycle states (service_state_t). -/
inductive service_state_t where
  | STOPPED
  | STARTING
  | STARTED
  | STOPPING
  deriving DecidableEq, Repr

/-- Service record types (service_type). -/
inductive service_type where
  | INTERNAL
  | PROCESS
  | BGPROCESS
  | SCRIPTED
  deriving DecidableEq, Repr

/-- Listener notification events (service_event). -/
inductive service_event where
  | STARTED
  | STOPPED
  | STARTCANCELLED
  | STOPCANCELLED
  | FAILEDSTART
  deriving DecidableEq, Repr

/-- Result of bgproc_service::read_pid_file (pid_result_t). -/
inductive pid_result_t where
  | OK
  | FAILED
  | TERMINATED
  deriving DecidableEq, Repr

/-- Observable engine events, recorded in an append-only trace.  An entry is
appended at the entry point of each named operation (`req` for `require()`,
`rel` for `release()`, and so on), at each `log(...)` call (`logMsg`), at
listener notifications, at kill/fork/timer syscalls, and at
`process_queues()` requests (`pq`). -/
inductive ev where
  | req (sid : Nat)
  | rel (sid : Nat)
  | strt (sid : Nat) (activate : Bool)
  | dstop (sid : Nat)
  | stpd (sid : Nat)
  | strtd (sid : Nat)
  | fts (sid : Nat) (depfailed : Bool)
  | hexit (sid : Nat) (status : Nat)
  | dorestart (sid : Nat)
  | armTimer (sid : Nat) (t : Int)
  | forkEv (sid : Nat) (p : Int)
  | killSig (p : Int) (sig : Int)
  | notifyEv (sid : Nat) (event : service_event)
  | logMsg (sid : Nat)
  | ext (sid : Nat)
  | pq
  deriving DecidableEq, Repr

/-- A soft dependency edge (prt_dep): target service plus the two edge-local
flags `holding_acq` and `waiting_on`. -/
structure soft_dep where
  to_sid : Nat
  holding_acq : Bool
  waiting_on : Bool
  deriving DecidableEq, Repr

/-- The state of one service record.  Configuration fields and runtime
fields of service_record, base_process_service and the concrete subclasses,
flattened (fields of subclasses are simply unused by other types).
`soft_dpts` holds the back-references to soft edges pointing at this record,
as pairs (dependent service index, index of the edge in that service's
`soft_deps` list), mirroring the prt_dep pointer list of the source.
String-valued paths retain only what the code inspects (emptiness);
`can_interrupt_stop_f` is the value of the virtual can_interrupt_stop(),
modelled from the spec as a per-record constant because service.h is not
part of this repository snapshot (the spec leaves it type-specific). -/
structure sstate where
  record_type : service_type
  service_state : service_state_t
  desired_state : service_state_t
  required_by : Int
  prop_require : Bool
  prop_release : Bool
  prop_start : Bool
  prop_stop : Bool
  prop_failure : Bool
  start_explicit : Bool
  waiting_for_deps : Bool
  force_stop : Bool
  restarting : Bool
  pinned_started : Bool
  pinned_stopped : Bool
  auto_restart : Bool
  smooth_recovery : Bool
  starts_on_console : Bool
  runs_on_console : Bool
  rw_ready : Bool
  log_ready : Bool
  no_sigterm : Bool
  pass_cs_fd : Bool
  term_signal : Int
  depends_on : List Nat
  soft_deps : List soft_dep
  dependents : List Nat
  soft_dpts : List (Nat × Nat)
  pid : Int
  exit_status : Nat
  waiting_for_execstat : Bool
  doing_recovery : Bool
  tracking_child : Bool
  socket_path : String
  socket_fd : Int
  stop_command : String
  pid_file : String
  waiting_restart_timer : Bool
  restart_interval_count : Nat
  max_restart_interval_count : Nat
  restart_interval : Int
  restart_delay : Int
  restart_interval_time : Int
  last_start_time : Int
  can_interrupt_stop_f : Bool
  deriving DecidableEq, Repr

/-- A quiescent default record (used only as the out-of-range default of
list lookups; all scenarios index valid records). -/
def sstate.dfl : sstate :=
  { record_type := service_type.INTERNAL
  , service_state := service_state_t.STOPPED
  , desired_state := service_state_t.STOPPED
  , required_by := 0
  , prop_require := false, prop_release := false, prop_start := false
  , prop_stop := false, prop_failure := false
  , start_explicit := false, waiting_for_deps := false, force_stop := false
  , restarting := false, pinned_started := false, pinned_stopped := false
  , auto_restart := false, smooth_recovery := false
  , starts_on_console := false, runs_on_console := false
  , rw_ready := false, log_ready := false, no_sigterm := false
  , pass_cs_fd := false, term_signal := -1
  , depends_on := [], soft_deps := [], dependents := [], soft_dpts := []
  , pid := -1, exit_status := 0, waiting_for_execstat := false
  , doing_recovery := false, tracking_child := false
  , socket_path := "", socket_fd := -1, stop_command := "", pid_file := ""
  , waiting_restart_timer := false
  , restart_interval_count := 0, max_restart_interval_count := 3
  , restart_interval := 10000000000, restart_delay := 200000000
  , restart_interval_time := 0, last_start_time := 0
  , can_interrupt_stop_f := false }

instance : Inhabited sstate := ⟨sstate.dfl⟩

/-- The global engine state: the service set (records addressed by list
index), the propagation queues (spec section 4.1; their container type lives
in service.h, outside this snapshot — the spec states each queue stores each
record at most once), the active-service counter, the global auto-restart
setting, and the event trace. -/
structure engine where
  svcs : List sstate
  prop_queue : List Nat
  start_queue : List Nat
  stop_queue : List Nat
  console_queue : List Nat
  active_services : Int
  global_auto_restart : Bool
  trace : List ev
  deriving DecidableEq, Repr

/-- Outcomes of one bgproc_service::read_pid_file invocation's syscalls:
open/read success, the parsed pid, the waitpid return value (with whether
errno was ECHILD), the status waitpid stored, and whether kill(pid, 0)
succeeded. -/
structure pidOracle where
  open_read_ok : Bool
  file_pid : Int
  wait_r : Int
  wait_echild : Bool
  wait_status : Nat
  kill0_ok : Bool
  deriving DecidableEq, Repr

/-- Oracle for read_pid_file when the supplied oracle list is exhausted:
the open fails, so the read reports FAILED. -/
def pidOracle.dfl : pidOracle :=
  { open_read_ok := false, file_pid := -1, wait_r := 0, wait_echild := false
  , wait_status := 0, kill0_ok := true }

instance : Inhabited pidOracle := ⟨pidOracle.dfl⟩

instance : Inhabited soft_dep := ⟨{ to_sid := 0, holding_acq := false, waiting_on := false }⟩

/-- Operating-system oracle: the outcome of every syscall the engine
branches on.  `now` is the monotonic clock (dasynq time_val values are
modelled as total nanoseconds: normalized (sec, nsec) pairs are order- and
subtraction-isomorphic to their totals).  `pipe_r`/`pipe_errno` are the
result of the read in exec_status_pipe_watcher::fd_event;
`waitpid_r`/`waitpid_echild` the waitpid in
base_process_service::all_deps_stopped; `pidfile_oracles` feeds successive
read_pid_file calls. -/
structure osEnv where
  malloc_ok : Bool
  socket_ok : Bool
  bind_ok : Bool
  chown_ok : Bool
  chmod_ok : Bool
  listen_ok : Bool
  new_sock_fd : Int
  pipe_ok : Bool
  socketpair_ok : Bool
  conn_alloc_ok : Bool
  fork_ok : Bool
  fork_pid : Int
  now : Int
  waitpid_r : Int
  waitpid_echild : Bool
  pidfile_oracles : List pidOracle
  pipe_r : Int
  pipe_errno : Nat
  deriving DecidableEq, Repr

/-- An all-success oracle with fork pid 100 at time 0. -/
def osEnv.ok : osEnv :=
  { malloc_ok := true, socket_ok := true, bind_ok := true, chown_ok := true
  , chmod_ok := true, listen_ok := true, new_sock_fd := 4
  , pipe_ok := true, socketpair_ok := true, conn_alloc_ok := true
  , fork_ok := true, fork_pid := 100, now := 0
  , waitpid_r := 0, waitpid_echild := false, pidfile_oracles := []
  , pipe_r := 0, pipe_errno := 0 }

/-! ## POSIX wait-status decoding (glibc encoding on a 16-bit status) -/

/-- WIFEXITED: the low 7 bits (termination signal) are zero. -/
def WIFEXITED (s : Nat) : Bool := s % 128 == 0

/-- WEXITSTATUS: bits 8..15. -/
def WEXITSTATUS (s : Nat) : Nat := s / 256 % 256

/-- WIFSIGNALED: glibc: ((status & 0x7f) + 1) >> 1 > 0. -/
def WIFSIGNALED (s : Nat) : Bool := decide (0 < (s % 128 + 1) / 2)

/-- WTERMSIG: the low 7 bits. -/
def WTERMSIG (s : Nat) : Nat := s % 128

/-! ## State accessors and primitive mutators -/

/-- Read service `sid`'s record. -/
def getS (e : engine) (sid : Nat) : sstate := e.svcs.getD sid sstate.dfl

/-- Replace service `sid`'s record. -/
def setS (e : engine) (sid : Nat) (s : sstate) : engine :=
  { e with svcs := e.svcs.set sid s }

/-- Update service `sid`'s record in place. -/
def updS (e : engine) (sid : Nat) (f : sstate → sstate) : engine :=
  setS e sid (f (getS e sid))

/-- Append an event to the trace. -/
def emit (e : engine) (v : ev) : engine := { e with trace := e.trace ++ [v] }

/-! ## Service set primitives

The queue containers and the active-service counter live in service.h /
includes outside this snapshot.  Modelled from the spec (section 4.1): each
queue stores each record at most once; `service_active`/`service_inactive`
adjust the non-STOPPED record counter. -/

/-- service_set::addToPropQueue.  Modelled from the spec: enqueue unless
already a member. -/
def addToPropQueue (e : engine) (sid : Nat) : engine :=
  if e.prop_queue.contains sid then e
  else { e with prop_queue := e.prop_queue ++ [sid] }

/-- service_set::addToStartQueue.  Modelled from the spec: enqueue unless
already a member. -/
def addToStartQueue (e : engine) (sid : Nat) : engine :=
  if e.start_queue.contains sid then e
  else { e with start_queue := e.start_queue ++ [sid] }

/-- service_set::addToStopQueue.  Modelled from the spec: enqueue unless
already a member. -/
def addToStopQueue (e : engine) (sid : Nat) : engine :=
  if e.stop_queue.contains sid then e
  else { e with stop_queue := e.stop_queue ++ [sid] }

/-- service_set::service_active (service.cc lines 1251-1254). -/
def service_active (e : engine) : engine :=
  { e with active_services := e.active_services + 1 }

/-- service_set::service_inactive (service.cc lines 1256-1259). -/
def service_inactive (e : engine) : engine :=
  { e with active_services := e.active_services - 1 }

/-- service_set::append_console_queue via
service_record::queue_for_console (service.cc lines 1236-1239); the queue
itself is modelled from the spec (FIFO waiter list). -/
def queue_for_console (e : engine) (sid : Nat) : engine :=
  { e with console_queue := e.console_queue ++ [sid] }

/-- service_record::release_console → service_set::pull_console_queue
(service.cc lines 1241-1244).  The arbiter implementation lives in dinit.cc
(outside this snapshot); modelled from the spec as popping the FIFO head.
The synchronous acquiredConsole re-entry of the new owner is not modelled:
no claim exercises console ownership hand-off. -/
def release_console (e : engine) : engine :=
  { e with console_queue := e.console_queue.drop 1 }

/-- service_set::unqueue_console via service_record::interrupt_start
(service.cc lines 1246-1249); removes the waiter in place. -/
def unqueue_console (e : engine) (sid : Nat) : engine :=
  { e with console_queue := e.console_queue.filter (fun x => x ≠ sid) }

/-- service_record::do_auto_restart (service.cc lines 138-144). -/
def do_auto_restart (e : engine) (sid : Nat) : Bool :=
  (getS e sid).auto_restart && e.global_auto_restart

/-- The virtual can_interrupt_start().  Declared in service.h (outside this
snapshot); modelled from the spec: "Starts are cancellable only by services
whose type reports can_interrupt_start true (currently: process variants
waiting on the restart timer)". -/
def can_interrupt_start (e : engine) (sid : Nat) : Bool :=
  (getS e sid).waiting_restart_timer

/-- The virtual can_interrupt_stop().  Declared in service.h (outside this
snapshot); the spec leaves it type-specific, so it is modelled as the
per-record constant `can_interrupt_stop_f`. -/
def can_interrupt_stop (e : engine) (sid : Nat) : Bool :=
  (getS e sid).can_interrupt_stop_f

/-- The is_stopped() predicate used by stopCheckDependents/stopDependents.
Declared in service.h (outside this snapshot); modelled from the spec
("every direct dependent is STOPPED"). -/
def is_stopped (s : sstate) : Bool := s.service_state == service_state_t.STOPPED

/-- service_record::forceStop (service.cc lines 1053-1060). -/
def forceStop (e : engine) (sid : Nat) : engine :=
  if (getS e sid).service_state ≠ service_state_t.STOPPED then
    addToStopQueue (updS e sid (fun s => { s with force_stop := true })) sid
  else e

/-- service_record::dependentStopped (service.cc lines 1062-1067). -/
def dependentStopped (e : engine) (sid : Nat) : engine :=
  if (getS e sid).service_state = service_state_t.STOPPING ∧
      (getS e sid).waiting_for_deps then
    addToStopQueue e sid
  else e

/-- service_record::dependencyStarted (service.cc lines 538-543). -/
def dependencyStarted (e : engine) (sid : Nat) : engine :=
  if (getS e sid).service_state = service_state_t.STARTING ∧
      (getS e sid).waiting_for_deps then
    addToStartQueue e sid
  else e

/-- service_record::require (service.cc lines 388-395): post-increment
`required_by`, and on the 0→1 transition set `prop_require` unless a release
was pending (the two cancel) and enqueue on the propagate queue. -/
def require (e : engine) (sid : Nat) : engine :=
  let e := emit e (ev.req sid)
  let old := (getS e sid).required_by
  let e := updS e sid (fun s => { s with required_by := s.required_by + 1 })
  if old = 0 then
    let e := updS e sid (fun s =>
      { s with prop_require := !s.prop_release, prop_release := false })
    addToPropQueue e sid
  else e

/-- service_record::notifyListeners: the listener set lives outside this
snapshot; notification is recorded as a trace event. -/
def notifyListeners (e : engine) (sid : Nat) (v : service_event) : engine :=
  emit e (ev.notifyEv sid v)

/-- service_record::stopCheckDependents (service.cc lines 1124-1135). -/
def stopCheckDependents (e : engine) (sid : Nat) : Bool :=
  (getS e sid).dependents.all (fun d => is_stopped (getS e d))

/-- service_record::stopDependents (service.cc lines 1137-1159): flag
non-stopped dependents, cascade force_stop, set each dependent's prop_stop
and enqueue it on the propagate queue; return whether all dependents were
already stopped. -/
def stopDependents (e : engine) (sid : Nat) : engine × Bool :=
  (getS e sid).dependents.foldl
    (fun (acc : engine × Bool) d =>
      let e := acc.1
      let all_deps_stopped := acc.2 && is_stopped (getS e d)
      let e := if (getS e sid).force_stop then forceStop e d else e
      let e := updS e d (fun s => { s with prop_stop := true })
      let e := addToPropQueue e d
      (e, all_deps_stopped))
    (e, true)

/-- service_record::interrupt_start (service.cc lines 1246-1249) and its
base_process_service override (service.cc lines 1337-1345), dispatched on
the record type (INTERNAL uses the base version; the process-variant
override additionally cancels an armed restart timer). -/
def interrupt_start (e : engine) (sid : Nat) : engine :=
  match (getS e sid).record_type with
  | service_type.INTERNAL => unqueue_console e sid
  | _ =>
      let e :=
        if (getS e sid).waiting_restart_timer then
          updS e sid (fun s => { s with waiting_restart_timer := false })
        else e
      unqueue_console e sid

/-! ## do_stop / release

In the source, `release()` and `do_stop()` call each other.  The recursion
is depth-bounded: `do_stop` calls `release` only after clearing
`start_explicit`, so a `do_stop` reached from `release` either finds
`start_explicit` false (when invoked from `do_stop`'s own release) or
clears it and performs a second `release` that merely takes `required_by`
negative.  The mutual recursion is therefore hand-unrolled below:
`do_stop_rest` is the tail of do_stop from the `service_state != STARTED`
check onward (service.cc lines 1091-1122), `do_stop_noexp` is do_stop as
invoked with `start_explicit` already false, `release_inner` is release
whose recursive do_stop is `do_stop_noexp`, and `do_stop`/`release` are the
full entry points. -/

/-- The body of service_record::do_stop after the explicit-activation
release block (service.cc lines 1091-1122). -/
def do_stop_rest (e : engine) (sid : Nat) : engine :=
  if (getS e sid).service_state ≠ service_state_t.STARTED then
    if (getS e sid).service_state = service_state_t.STARTING then
      if ¬ can_interrupt_start e sid then
        (stopDependents e sid).1
      else
        let e := notifyListeners e sid service_event.STARTCANCELLED
        let e := interrupt_start e sid
        let e := updS e sid (fun s =>
          { s with service_state := service_state_t.STOPPING,
                   waiting_for_deps := true })
        let r := stopDependents e sid
        if r.2 then addToStopQueue r.1 sid else r.1
    else
      e
  else
    let e := updS e sid (fun s =>
      { s with service_state := service_state_t.STOPPING,
               waiting_for_deps := true })
    let r := stopDependents e sid
    if r.2 then addToStopQueue r.1 sid else r.1

/-- service_record::do_stop (service.cc lines 1081-1122) as entered with
`start_explicit` false — the only way it is reached from `release` (see the
unrolling note above). -/
def do_stop_noexp (e : engine) (sid : Nat) : engine :=
  let e := emit e (ev.dstop sid)
  if (getS e sid).pinned_started then e
  else do_stop_rest e sid

/-- The shared tail of service_record::release after `required_by` has
reached zero (service.cc lines 399-414), parameterised by the do_stop
implementation to unroll the mutual recursion. -/
def release_tail (dstp : engine → Nat → engine) (e : engine) (sid : Nat) :
    engine :=
  let e := updS e sid (fun s => { s with desired_state := service_state_t.STOPPED })
  let e := updS e sid (fun s =>
    { s with prop_release := !s.prop_require, prop_require := false })
  let e := addToPropQueue e sid
  if (getS e sid).service_state = service_state_t.STOPPED then
    service_inactive e
  else
    dstp e sid

/-- service_record::release (service.cc lines 397-415), parameterised by
the do_stop implementation used on the 1→0 transition. -/
def release_gen (dstp : engine → Nat → engine) (e : engine) (sid : Nat) :
    engine :=
  let e := emit e (ev.rel sid)
  let e := updS e sid (fun s => { s with required_by := s.required_by - 1 })
  if (getS e sid).required_by = 0 then release_tail dstp e sid else e

/-- release as called from within do_stop's explicit-activation block. -/
def release_inner : engine → Nat → engine := release_gen do_stop_noexp

/-- service_record::do_stop (service.cc lines 1081-1122): short-circuit on
`pinned_started`; if explicitly activated and auto-restart is off, drop the
explicit activation (returning early when the release brought
`required_by` to zero, since that release re-enters do_stop itself);
otherwise fall through to the stopping logic. -/
def do_stop (e : engine) (sid : Nat) : engine :=
  let e := emit e (ev.dstop sid)
  if (getS e sid).pinned_started then e
  else
    if (getS e sid).start_explicit ∧ ¬ do_auto_restart e sid then
      let e := updS e sid (fun s => { s with start_explicit := false })
      let e := release_inner e sid
      if (getS e sid).required_by = 0 then e
      else do_stop_rest e sid
    else do_stop_rest e sid

/-- service_record::release (service.cc lines 397-415): decrement
`required_by`; on the 1→0 transition set the desired state to STOPPED,
schedule the release propagation (cancelling against a pending require),
and either notify inactivity (when already STOPPED) or initiate the stop. -/
def release : engine → Nat → engine := release_gen do_stop

/-- service_record::release_dependencies (service.cc lines 417-430):
release every hard dependency, and every soft-dependency target whose edge
is held, clearing `holding_acq`.  Soft edges are walked by index so that
each iteration reads the current edge state, as the pointer loop does. -/
def release_dependencies (e : engine) (sid : Nat) : engine :=
  let e := (getS e sid).depends_on.foldl (fun e d => release e d) e
  (List.range (getS e sid).soft_deps.length).foldl
    (fun e i =>
      let edge := (getS e sid).soft_deps.getD i default
      if edge.holding_acq then
        let e := release e edge.to_sid
        updS e sid (fun s =>
          { s with soft_deps := s.soft_deps.set i { edge with holding_acq := false } })
      else e)
    e

/-- The hard-dependency loop of startCheckDependencies with
start_deps = true (service.cc lines 549-560): flag and enqueue every
dependency that is not yet STARTED. -/
def startCheckDeps_hardT (e : engine) (sid : Nat) : engine × Bool :=
  (getS e sid).depends_on.foldl
    (fun (acc : engine × Bool) d =>
      if (getS acc.1 d).service_state ≠ service_state_t.STARTED then
        let e := updS acc.1 d (fun s => { s with prop_start := true })
        (addToPropQueue e d, false)
      else acc)
    (e, true)

/-- The soft-dependency loop of startCheckDependencies with
start_deps = true (service.cc lines 562-585): flag and enqueue targets not
yet STARTED, marking the edge `waiting_on`; clear `waiting_on` on edges
whose target is STARTED. -/
def startCheckDeps_softT (e : engine) (sid : Nat) (all0 : Bool) :
    engine × Bool :=
  (List.range (getS e sid).soft_deps.length).foldl
    (fun (acc : engine × Bool) i =>
      let e := acc.1
      let edge := (getS e sid).soft_deps.getD i default
      if (getS e edge.to_sid).service_state ≠ service_state_t.STARTED then
        let e := updS e edge.to_sid (fun s => { s with prop_start := true })
        let e := addToPropQueue e edge.to_sid
        let e := updS e sid (fun s =>
          { s with soft_deps := s.soft_deps.set i { edge with waiting_on := true } })
        (e, false)
      else
        let e := updS e sid (fun s =>
          { s with soft_deps := s.soft_deps.set i { edge with waiting_on := false } })
        (e, acc.2))
    (e, all0)

/-- service_record::startCheckDependencies with start_deps = true
(service.cc lines 545-588), the specialisation used by start(). -/
def startCheckDependenciesT (e : engine) (sid : Nat) : engine × Bool :=
  let r := startCheckDeps_hardT e sid
  startCheckDeps_softT r.1 sid r.2

/-- The soft-dependency loop of startCheckDependencies with
start_deps = false (service.cc lines 562-585): edges being waited on whose
target is no longer STARTING are cleared; a target still STARTING aborts
with false.  Walks edges by index; the accumulator's Option carries the
early return. -/
def startCheckDeps_softF (e : engine) (sid : Nat) : engine × Bool :=
  let r := (List.range (getS e sid).soft_deps.length).foldl
    (fun (acc : engine × Option Bool) i =>
      match acc.2 with
      | some _ => acc
      | none =>
        let e := acc.1
        let edge := (getS e sid).soft_deps.getD i default
        if edge.waiting_on then
          if (getS e edge.to_sid).service_state ≠ service_state_t.STARTING then
            (updS e sid (fun s =>
              { s with soft_deps := s.soft_deps.set i { edge with waiting_on := false } }),
             none)
          else (e, some false)
        else (e, none))
    (e, none)
  (r.1, (r.2.getD true))

/-- service_record::startCheckDependencies with start_deps = false
(service.cc lines 545-588), the specialisation used by execute_transition,
do_start and acquiredConsole: a hard dependency not yet STARTED returns
false immediately (no mutation); otherwise the soft edges are polled. -/
def startCheckDependenciesF (e : engine) (sid : Nat) : engine × Bool :=
  if (getS e sid).depends_on.all
      (fun d => (getS e d).service_state == service_state_t.STARTED) then
    startCheckDeps_softF e sid
  else (e, false)

/-- The body of service_record::start after the explicit-activation block
(service.cc lines 439-465): fast-return when already active and not
stopped; interrupt an interruptible stop; otherwise transition to STARTING
and request dependency starts. -/
def start_core (e : engine) (sid : Nat) : engine :=
  if (getS e sid).desired_state = service_state_t.STARTED ∧
      (getS e sid).service_state ≠ service_state_t.STOPPED then e
  else
    let was_active := (getS e sid).service_state ≠ service_state_t.STOPPED ∨
      (getS e sid).desired_state ≠ service_state_t.STOPPED
    let e := updS e sid (fun s => { s with desired_state := service_state_t.STARTED })
    let cont : engine → engine := fun e =>
      let e := updS e sid (fun s =>
        { s with service_state := service_state_t.STARTING,
                 waiting_for_deps := true })
      let r := startCheckDependenciesT e sid
      if r.2 then addToStartQueue r.1 sid else r.1
    if (getS e sid).service_state ≠ service_state_t.STOPPED then
      if (getS e sid).service_state ≠ service_state_t.STOPPING ∨
          ¬ can_interrupt_stop e sid then e
      else
        cont (notifyListeners e sid service_event.STOPCANCELLED)
    else
      cont (if ¬ was_active then service_active e else e)

/-- service_record::start (service.cc lines 432-465): optionally acquire an
explicit activation (require() plus `start_explicit`), then run the start
body. -/
def start (e : engine) (sid : Nat) (activate : Bool) : engine :=
  let e := emit e (ev.strt sid activate)
  let e :=
    if activate ∧ ¬ (getS e sid).start_explicit then
      updS (require e sid) sid (fun s => { s with start_explicit := true })
    else e
  start_core e sid

/-! ## stopped / started / failed_to_start -/

/-- The soft-dependent acquisition-break loop of service_record::stopped
(service.cc lines 71-77): for every soft edge held on this record, clear
`holding_acq` and release this record once. -/
def stopped_soft_release (e : engine) (sid : Nat) : engine :=
  (getS e sid).soft_dpts.foldl
    (fun e fi =>
      let edge := (getS e fi.1).soft_deps.getD fi.2 default
      if edge.holding_acq then
        let e := updS e fi.1 (fun s =>
          { s with soft_deps := s.soft_deps.set fi.2 { edge with holding_acq := false } })
        release e sid
      else e)
    e

/-- The dependency-notification loop of service_record::stopped
(service.cc lines 82-85). -/
def stopped_signal_deps (e : engine) (sid : Nat) : engine :=
  (getS e sid).depends_on.foldl (fun e d => dependentStopped e d) e

/-- service_record::stopped (service.cc lines 61-111): run once a service
has actually stopped.  Break soft acquisitions held on this record, decide
on restart, signal hard dependencies, enter STOPPED, then either restart or
drop the activation socket and the explicit activation / active count.
fd bookkeeping beyond `socket_fd` and terminal calls are not modelled. -/
def stopped (e : engine) (sid : Nat) : engine :=
  let e := emit e (ev.stpd sid)
  let e := if (getS e sid).runs_on_console then release_console e else e
  let e := updS e sid (fun s => { s with force_stop := false })
  let e := stopped_soft_release e sid
  let will_restart := (getS e sid).desired_state = service_state_t.STARTED ∧
    e.global_auto_restart
  let e := stopped_signal_deps e sid
  let e := updS e sid (fun s => { s with service_state := service_state_t.STOPPED })
  let e :=
    if will_restart then
      start (updS e sid (fun s => { s with restarting := true })) sid false
    else
      let e :=
        if (getS e sid).socket_fd ≠ -1 then
          updS e sid (fun s => { s with socket_fd := -1 })
        else e
      if (getS e sid).start_explicit then
        release (updS e sid (fun s => { s with start_explicit := false })) sid
      else if (getS e sid).required_by = 0 then service_inactive e
      else e
  notifyListeners e sid service_event.STOPPED

/-- The dependent wake-up loops of service_record::started (service.cc
lines 772-778): notify each hard dependent and the from-side of each soft
back-edge. -/
def started_wake_dependents (e : engine) (sid : Nat) : engine :=
  let e := (getS e sid).dependents.foldl (fun e d => dependencyStarted e d) e
  (getS e sid).soft_dpts.foldl (fun e fi => dependencyStarted e fi.1) e

/-- service_record::started (service.cc lines 748-779): enter STARTED,
notify listeners, fire the rw_ready/log_ready external hooks, stop again at
once if a stop became desired meanwhile, otherwise wake dependents. -/
def started (e : engine) (sid : Nat) : engine :=
  let e := emit e (ev.strtd sid)
  let e :=
    if (getS e sid).starts_on_console ∧ ¬ (getS e sid).runs_on_console then
      release_console e
    else e
  let e := updS e sid (fun s => { s with service_state := service_state_t.STARTED })
  let e := notifyListeners e sid service_event.STARTED
  let e := if (getS e sid).rw_ready then emit e (ev.ext sid) else e
  let e := if (getS e sid).log_ready then emit e (ev.ext sid) else e
  if (getS e sid).force_stop ∨
      (getS e sid).desired_state = service_state_t.STOPPED then
    do_stop e sid
  else
    started_wake_dependents e sid

/-- The dependent-cancellation loop of service_record::failed_to_start
(service.cc lines 796-802): flag prop_failure on every STARTING hard
dependent and enqueue it on the propagate queue. -/
def fts_fail_dependents (e : engine) (sid : Nat) : engine :=
  (getS e sid).dependents.foldl
    (fun e d =>
      if (getS e d).service_state = service_state_t.STARTING then
        addToPropQueue (updS e d (fun s => { s with prop_failure := true })) d
      else e)
    e

/-- The soft-dependent wake-up loop of service_record::failed_to_start
(service.cc lines 803-812): every soft dependent waiting on this record has
its edge released and its from-side woken. -/
def fts_wake_soft (e : engine) (sid : Nat) : engine :=
  (getS e sid).soft_dpts.foldl
    (fun e fi =>
      let edge := (getS e fi.1).soft_deps.getD fi.2 default
      if edge.waiting_on then
        let edge2 := { edge with holding_acq := false, waiting_on := false }
        let e := updS e fi.1 (fun s =>
          { s with soft_deps := s.soft_deps.set fi.2 edge2 })
        let e := dependencyStarted e fi.1
        release e sid
      else e)
    e

/-- service_record::failed_to_start (service.cc lines 781-813): enter
STOPPED, drop any explicit activation, notify FAILEDSTART, flag
prop_failure on every STARTING hard dependent, and wake soft dependents
that were waiting on this record, releasing their acquisition. -/
def failed_to_start (e : engine) (sid : Nat) (depfailed : Bool) : engine :=
  let e := emit e (ev.fts sid depfailed)
  let e :=
    if ¬ depfailed ∧ (getS e sid).starts_on_console then release_console e
    else e
  let e := updS e sid (fun s => { s with service_state := service_state_t.STOPPED })
  let e :=
    if (getS e sid).start_explicit then
      release (updS e sid (fun s => { s with start_explicit := false })) sid
    else e
  let e := notifyListeners e sid service_event.FAILEDSTART
  let e := fts_fail_dependents e sid
  fts_wake_soft e sid

/-- service_record::emergency_stop (service.cc lines 146-155): drop the
explicit activation unless auto-restarting, force-stop self, stop
dependents, and finalise as stopped. -/
def emergency_stop (e : engine) (sid : Nat) : engine :=
  let e :=
    if ¬ do_auto_restart e sid ∧ (getS e sid).start_explicit then
      release (updS e sid (fun s => { s with start_explicit := false })) sid
    else e
  let e := forceStop e sid
  let e := (stopDependents e sid).1
  stopped e sid

/-! ## Activation socket and process launch -/

/-- service_record::open_socket (service.cc lines 590-650): succeed at once
without a socket spec or with the socket already open; otherwise allocate
the address, unlink the stale path, create/bind/chown/chmod/listen, storing
the new fd, with an ERROR log and failure on each unsuccessful step. -/
def open_socket (e : engine) (sid : Nat) (env : osEnv) : engine × Bool :=
  if (getS e sid).socket_path.isEmpty ∨ (getS e sid).socket_fd ≠ -1 then
    (e, true)
  else if ¬ env.malloc_ok then (emit e (ev.logMsg sid), false)
  else if ¬ env.socket_ok then (emit e (ev.logMsg sid), false)
  else if ¬ env.bind_ok then (emit e (ev.logMsg sid), false)
  else if ¬ env.chown_ok then (emit e (ev.logMsg sid), false)
  else if ¬ env.chmod_ok then (emit e (ev.logMsg sid), false)
  else if ¬ env.listen_ok then (emit e (ev.logMsg sid), false)
  else (updS e sid (fun s => { s with socket_fd := env.new_sock_fd }), true)

/-- base_process_service::start_ps_process(cmd, on_console) (service.cc
lines 834-931): record the start time, create the exec-status pipe,
optionally the control socketpair and connection, register the status
watcher and fork.  On success the parent stores the child pid and sets
`waiting_for_execstat`.  Every failure path logs and returns false (the
descriptor cleanup cascade has no observable state here).  The command
vector and console flag affect only the child side, which is outside the
engine state. -/
def start_ps_process_cmd (e : engine) (sid : Nat) (env : osEnv) : engine × Bool :=
  let e := updS e sid (fun s => { s with last_start_time := env.now })
  if ¬ env.pipe_ok then (emit e (ev.logMsg sid), false)
  else if (getS e sid).pass_cs_fd ∧ ¬ env.socketpair_ok then
    (emit e (ev.logMsg sid), false)
  else if (getS e sid).pass_cs_fd ∧ ¬ env.conn_alloc_ok then
    (emit e (ev.logMsg sid), false)
  else if ¬ env.fork_ok then (emit e (ev.logMsg sid), false)
  else
    let e := updS e sid (fun s =>
      { s with pid := env.fork_pid, waiting_for_execstat := true })
    (emit e (ev.forkEv sid env.fork_pid), true)

/-- base_process_service::do_restart (service.cc lines 1278-1299): clear
the restarting/timer flags, count the restart, re-launch; on launch failure
fail the start (STARTING) or force a stop (smooth recovery), then request
queue processing. -/
def do_restart (e : engine) (sid : Nat) (env : osEnv) : engine :=
  let e := emit e (ev.dorestart sid)
  let e := updS e sid (fun s =>
    { s with restarting := false, waiting_restart_timer := false,
             restart_interval_count := s.restart_interval_count + 1 })
  let r := start_ps_process_cmd e sid env
  if ¬ r.2 then
    let e := r.1
    let e :=
      if (getS e sid).service_state = service_state_t.STARTING then
        failed_to_start e sid false
      else
        forceStop (updS e sid (fun s =>
          { s with desired_state := service_state_t.STOPPED })) sid
    emit e ev.pq
  else r.1

/-- base_process_service::restart_ps_process (service.cc lines 1301-1335):
refuse when the windowed restart counter is exhausted; otherwise reset the
window if it lapsed, then either restart immediately (strictly more than
`restart_delay` since the last start) or arm the restart timer for the
remaining delay. -/
def restart_ps_process (e : engine) (sid : Nat) (env : osEnv) : engine × Bool :=
  let s := getS e sid
  let rate_fail := s.max_restart_interval_count ≠ 0 ∧
    env.now - s.restart_interval_time < s.restart_interval ∧
    s.restart_interval_count ≥ s.max_restart_interval_count
  if rate_fail then (emit e (ev.logMsg sid), false)
  else
    let e :=
      if s.max_restart_interval_count ≠ 0 ∧
          ¬ (env.now - s.restart_interval_time < s.restart_interval) then
        updS e sid (fun s =>
          { s with restart_interval_time := env.now, restart_interval_count := 0 })
      else e
    let tdiff := env.now - (getS e sid).last_start_time
    if (getS e sid).restart_delay < tdiff then
      (do_restart e sid env, true)
    else
      let timeout := (getS e sid).restart_delay - tdiff
      let e := emit e (ev.armTimer sid timeout)
      (updS e sid (fun s => { s with waiting_restart_timer := true }), true)

/-- The virtual start_ps_process() (service.cc lines 815-832), dispatched
on the record type: INTERNAL services are started at once; process variants
(base_process_service, including SCRIPTED) either defer to
restart_ps_process when restarting or reset the restart window and fork. -/
def start_ps_process (e : engine) (sid : Nat) (env : osEnv) : engine × Bool :=
  match (getS e sid).record_type with
  | service_type.INTERNAL => (started e sid, true)
  | _ =>
      if (getS e sid).restarting then restart_ps_process e sid env
      else
        let e := updS e sid (fun s =>
          { s with restart_interval_time := env.now, restart_interval_count := 0 })
        start_ps_process_cmd e sid env

/-- service_record::allDepsStarted (service.cc lines 652-677): the starting
sequence run when dependencies are satisfied — console gate, non-dependency
blocker gate, activation socket, process launch.  Note the transcription
mirrors the source exactly: a failed open_socket calls failed_to_start()
but does NOT return, so start_ps_process() still runs. -/
def allDepsStarted (e : engine) (sid : Nat) (has_console : Bool) (env : osEnv) :
    engine :=
  if (getS e sid).starts_on_console ∧ ¬ has_console then
    queue_for_console (updS e sid (fun s => { s with waiting_for_deps := true })) sid
  else
    let e := updS e sid (fun s => { s with waiting_for_deps := false })
    if can_interrupt_start e sid then
      updS e sid (fun s => { s with waiting_for_deps := true })
    else
      let r := open_socket e sid env
      let e := if ¬ r.2 then failed_to_start r.1 sid false else r.1
      let r2 := start_ps_process e sid env
      if ¬ r2.2 then failed_to_start r2.1 sid false else r2.1

/-! ## Child-exit handling -/

/-- process_service::handle_exit_status (service.cc lines 157-198). -/
def process_handle_exit_status (e : engine) (sid : Nat) (status : Nat)
    (env : osEnv) : engine :=
  let did_exit := WIFEXITED status
  let was_signalled := WIFSIGNALED status
  let e :=
    if status ≠ 0 ∧ (getS e sid).service_state ≠ service_state_t.STOPPING then
      if did_exit ∨ was_signalled then emit e (ev.logMsg sid) else e
    else e
  if (getS e sid).service_state = service_state_t.STARTING then
    let e :=
      if did_exit ∧ WEXITSTATUS status = 0 then started e sid
      else failed_to_start e sid false
    emit e ev.pq
  else if (getS e sid).service_state = service_state_t.STOPPING then
    emit (stopped e sid) ev.pq
  else if (getS e sid).smooth_recovery ∧
      (getS e sid).service_state = service_state_t.STARTED ∧
      (getS e sid).desired_state = service_state_t.STARTED then
    let r := restart_ps_process e sid env
    if ¬ r.2 then emit (emergency_stop r.1 sid) ev.pq else r.1
  else
    emit (emergency_stop e sid) ev.pq

/-- bgproc_service::read_pid_file (service.cc lines 694-746): open and read
the pid file, parse the pid, and classify the child via waitpid / kill.
Returns the updated engine, the pid_result_t, and the value of the caller's
`exit_status` out-parameter after the call (waitpid writes it in the
TERMINATED case). -/
def read_pid_file (e : engine) (sid : Nat) (o : pidOracle) (status : Nat) :
    engine × pid_result_t × Nat :=
  if ¬ o.open_read_ok then
    (emit e (ev.logMsg sid), pid_result_t.FAILED, status)
  else
    let e := updS e sid (fun s => { s with pid := o.file_pid })
    if o.wait_r = -1 ∧ o.wait_echild then
      if o.kill0_ok then
        (updS e sid (fun s => { s with tracking_child := false }),
         pid_result_t.OK, status)
      else
        let e := emit e (ev.logMsg sid)
        (updS e sid (fun s => { s with pid := -1 }), pid_result_t.FAILED, status)
    else if o.wait_r = o.file_pid then
      (updS e sid (fun s => { s with pid := -1 }), pid_result_t.TERMINATED,
       o.wait_status)
    else if o.wait_r = 0 then
      (updS e sid (fun s => { s with tracking_child := true }),
       pid_result_t.OK, status)
    else
      let e := emit e (ev.logMsg sid)
      (updS e sid (fun s => { s with pid := -1 }), pid_result_t.FAILED, status)

/-- bgproc_service::handle_exit_status (service.cc lines 200-297), with the
`goto begin` loop realised as fuel-indexed recursion: every re-entry
through `begin` follows a TERMINATED pid-file read, which consumes one
oracle from the list, so `oracles.length + 1` fuel always suffices; the
fuel-exhausted branch is unreachable with that budget. -/
def bgproc_handle_core (e : engine) (sid : Nat) (status : Nat)
    (env : osEnv) (oracles : List pidOracle) : Nat → engine
  | 0 => e
  | fuel + 1 =>
    let did_exit := WIFEXITED status
    let was_signalled := WIFSIGNALED status
    let e :=
      if status ≠ 0 ∧ (getS e sid).service_state ≠ service_state_t.STOPPING then
        if did_exit ∨ was_signalled then emit e (ev.logMsg sid) else e
      else e
    if (getS e sid).doing_recovery then
      let e := updS e sid (fun s => { s with doing_recovery := false })
      if (did_exit ∧ WEXITSTATUS status ≠ 0) ∨ was_signalled then
        emit (emergency_stop e sid) ev.pq
      else if (getS e sid).pid_file.length ≠ 0 then
        let r := read_pid_file e sid (oracles.headD pidOracle.dfl) status
        match r.2.1 with
        | pid_result_t.FAILED => emit (emergency_stop r.1 sid) ev.pq
        | pid_result_t.TERMINATED =>
            bgproc_handle_core r.1 sid r.2.2 env (oracles.drop 1) fuel
        | pid_result_t.OK => r.1
      else e
    else if (getS e sid).service_state = service_state_t.STARTING then
      if status = 0 then
        let r := read_pid_file e sid (oracles.headD pidOracle.dfl) status
        match r.2.1 with
        | pid_result_t.FAILED => emit (failed_to_start r.1 sid false) ev.pq
        | pid_result_t.TERMINATED =>
            bgproc_handle_core (started r.1 sid) sid r.2.2 env
              (oracles.drop 1) fuel
        | pid_result_t.OK => emit (started r.1 sid) ev.pq
      else
        emit (failed_to_start e sid false) ev.pq
    else if (getS e sid).service_state = service_state_t.STOPPING then
      emit (stopped e sid) ev.pq
    else if (getS e sid).smooth_recovery ∧
        (getS e sid).service_state = service_state_t.STARTED ∧
        (getS e sid).desired_state = service_state_t.STARTED then
      let e := updS e sid (fun s => { s with doing_recovery := true })
      let r := restart_ps_process e sid env
      if ¬ r.2 then emit (emergency_stop r.1 sid) ev.pq else r.1
    else
      let e :=
        if ¬ do_auto_restart e sid ∧ (getS e sid).start_explicit then
          release (updS e sid (fun s => { s with start_explicit := false })) sid
        else e
      let e := forceStop e sid
      let e := (stopDependents e sid).1
      emit (stopped e sid) ev.pq

/-- scripted_service::handle_exit_status (service.cc lines 299-338): in
STOPPING, finalise as stopped whatever the stop command's exit status was,
logging failures; otherwise (STARTING) exit status 0 starts the service and
anything else fails the start, with an error log. -/
def scripted_handle_exit_status (e : engine) (sid : Nat) (status : Nat) :
    engine :=
  let did_exit := WIFEXITED status
  let was_signalled := WIFSIGNALED status
  if (getS e sid).service_state = service_state_t.STOPPING then
    if did_exit ∧ WEXITSTATUS status = 0 then
      emit (stopped e sid) ev.pq
    else
      let e := if did_exit ∨ was_signalled then emit e (ev.logMsg sid) else e
      emit (stopped e sid) ev.pq
  else
    if status = 0 then
      emit (started e sid) ev.pq
    else
      let e := if did_exit ∨ was_signalled then emit e (ev.logMsg sid) else e
      emit (failed_to_start e sid false) ev.pq

/-- The virtual handle_exit_status, dispatched on the record type; the
dispatch itself is what the child watcher and the exec-status pipe watcher
invoke, and it records the `hexit` trace event (INTERNAL services own no
child, so their branch is never reached by the watchers). -/
def handle_exit_status (e : engine) (sid : Nat) (status : Nat) (env : osEnv) :
    engine :=
  let e := emit e (ev.hexit sid status)
  match (getS e sid).record_type with
  | service_type.INTERNAL => e
  | service_type.PROCESS => process_handle_exit_status e sid status env
  | service_type.BGPROCESS =>
      bgproc_handle_core e sid status env env.pidfile_oracles
        (env.pidfile_oracles.length + 1)
  | service_type.SCRIPTED => scripted_handle_exit_status e sid status

/-- service_child_watcher::status_change (service.cc lines 113-136): store
the exit status and clear `pid`; while `waiting_for_execstat` is set,
suppress all further handling until the pipe readiness fires; otherwise
deregister and dispatch handle_exit_status. -/
def status_change (e : engine) (sid : Nat) (status : Nat) (env : osEnv) :
    engine :=
  let e := updS e sid (fun s => { s with pid := -1, exit_status := status })
  if (getS e sid).waiting_for_execstat then e
  else handle_exit_status e sid status env

/-- exec_status_pipe_watcher::fd_event (service.cc lines 340-386): clear
`waiting_for_execstat` and read the pipe.  A positive read is the child's
errno: exec failed — clear `pid`, log, and fail the start (STARTING) or
finalise the stop (STOPPING).  Otherwise exec succeeded: a STARTING
PROCESS is started, and a child whose exit was already observed
(`pid == -1`) has its stored exit status replayed through
handle_exit_status.  Ends by requesting queue processing. -/
def fd_event (e : engine) (sid : Nat) (env : osEnv) : engine :=
  let e := updS e sid (fun s => { s with waiting_for_execstat := false })
  let e :=
    if env.pipe_r > 0 then
      let e := updS e sid (fun s => { s with pid := -1 })
      let e := emit e (ev.logMsg sid)
      if (getS e sid).service_state = service_state_t.STARTING then
        failed_to_start e sid false
      else if (getS e sid).service_state = service_state_t.STOPPING then
        stopped e sid
      else e
    else
      let e :=
        if (getS e sid).record_type = service_type.PROCESS ∧
            (getS e sid).service_state = service_state_t.STARTING then
          started e sid
        else e
      if (getS e sid).pid = -1 then
        handle_exit_status e sid (getS e sid).exit_status env
      else e
  emit e ev.pq

/-! ## Stop finalisation and transitions -/

/-- base_process_service::all_deps_stopped (service.cc lines 1168-1204):
signal the process group unless the child is already gone; a BGPROCESS
additionally polls waitpid to finalise at once when the child is
untrackable or already reaped. -/
def base_process_all_deps_stopped (e : engine) (sid : Nat) (env : osEnv) :
    engine :=
  let e := updS e sid (fun s => { s with waiting_for_deps := false })
  if (getS e sid).pid ≠ -1 then
    let e :=
      if ¬ (getS e sid).no_sigterm then
        emit e (ev.killSig (-(getS e sid).pid) 15)
      else e
    let e :=
      if (getS e sid).term_signal ≠ -1 then
        emit e (ev.killSig (-(getS e sid).pid) (getS e sid).term_signal)
      else e
    if (getS e sid).record_type = service_type.BGPROCESS then
      if env.waitpid_r = -1 ∧ env.waitpid_echild then stopped e sid
      else if env.waitpid_r = (getS e sid).pid then stopped e sid
      else e
    else e
  else
    stopped e sid

/-- scripted_service::all_deps_stopped (service.cc lines 1206-1216): run
the stop command if there is one; treat a launch failure as stopped. -/
def scripted_all_deps_stopped (e : engine) (sid : Nat) (env : osEnv) : engine :=
  let e := updS e sid (fun s => { s with waiting_for_deps := false })
  if (getS e sid).stop_command.length = 0 then stopped e sid
  else
    let r := start_ps_process_cmd e sid env
    if ¬ r.2 then stopped r.1 sid else r.1

/-- The virtual all_deps_stopped, dispatched on the record type
(service.cc lines 1162-1216). -/
def all_deps_stopped (e : engine) (sid : Nat) (env : osEnv) : engine :=
  match (getS e sid).record_type with
  | service_type.INTERNAL =>
      stopped (updS e sid (fun s => { s with waiting_for_deps := false })) sid
  | service_type.SCRIPTED => scripted_all_deps_stopped e sid env
  | _ => base_process_all_deps_stopped e sid env

/-- service_record::execute_transition (service.cc lines 505-517). -/
def execute_transition (e : engine) (sid : Nat) (env : osEnv) : engine :=
  if (getS e sid).service_state = service_state_t.STARTING then
    let r := startCheckDependenciesF e sid
    if r.2 then allDepsStarted r.1 sid false env else r.1
  else if (getS e sid).service_state = service_state_t.STOPPING then
    if stopCheckDependents e sid then all_deps_stopped e sid env else e
  else e

/-- One iteration of the soft-dependency loop in the prop_require branch of
do_propagation (service.cc lines 475-479): require the edge's target, then
mark the edge `holding_acq`. -/
def req_soft_step (sid : Nat) (e : engine) (i : Nat) : engine :=
  let edge := (getS e sid).soft_deps.getD i default
  let e := require e edge.to_sid
  updS e sid (fun s =>
    { s with soft_deps := s.soft_deps.set i { edge with holding_acq := true } })

/-- service_record::do_propagation (service.cc lines 467-503): consume the
sticky propagation bits in order — require the dependencies, release them,
propagate a dependency failure, a start, a stop. -/
def do_propagation (e : engine) (sid : Nat) : engine :=
  let e :=
    if (getS e sid).prop_require then
      let e := (getS e sid).depends_on.foldl (fun e d => require e d) e
      let e := (List.range (getS e sid).soft_deps.length).foldl (req_soft_step sid) e
      updS e sid (fun s => { s with prop_require := false })
    else e
  let e :=
    if (getS e sid).prop_release then
      updS (release_dependencies e sid) sid (fun s => { s with prop_release := false })
    else e
  let e :=
    if (getS e sid).prop_failure then
      failed_to_start (updS e sid (fun s => { s with prop_failure := false })) sid true
    else e
  let e :=
    if (getS e sid).prop_start then
      start (updS e sid (fun s => { s with prop_start := false })) sid false
    else e
  if (getS e sid).prop_stop then
    do_stop (updS e sid (fun s => { s with prop_stop := false })) sid
  else e

/-! ### The five phases of do_propagation, as claim C5 words them

These definitions follow the specification claim ("each dequeued record
runs do_propagation which consumes, in order, its sticky bits: prop_require
(call require() on every hard dep and on every soft-dep target, marking the
edge holding_acq), prop_release (call release() on every edge previously
acquired, clearing holding_acq), prop_failure (call
failed_to_start(depfailed=true)), prop_start (call start(activate=false)),
prop_stop (call do_stop())"), one definition per consumed bit, to be
compared against the transcribed `do_propagation` above. -/

/-- Claim phase 1: consume prop_require — require every hard dependency and
every soft-dependency target, marking each soft edge `holding_acq`, and
clear the bit. -/
def prop_require_phase (e : engine) (sid : Nat) : engine :=
  if (getS e sid).prop_require then
    let e := (getS e sid).depends_on.foldl (fun e d => require e d) e
    let e := (List.range (getS e sid).soft_deps.length).foldl (req_soft_step sid) e
    updS e sid (fun s => { s with prop_require := false })
  else e

/-- Claim phase 2: consume prop_release — release every previously acquired
edge (every hard dependency, and every held soft edge, clearing its
`holding_acq`), and clear the bit. -/
def prop_release_phase (e : engine) (sid : Nat) : engine :=
  if (getS e sid).prop_release then
    updS (release_dependencies e sid) sid (fun s => { s with prop_release := false })
  else e

/-- Claim phase 3: consume prop_failure — call failed_to_start(true). -/
def prop_failure_phase (e : engine) (sid : Nat) : engine :=
  if (getS e sid).prop_failure then
    failed_to_start (updS e sid (fun s => { s with prop_failure := false })) sid true
  else e

/-- Claim phase 4: consume prop_start — call start(false). -/
def prop_start_phase (e : engine) (sid : Nat) : engine :=
  if (getS e sid).prop_start then
    start (updS e sid (fun s => { s with prop_start := false })) sid false
  else e

/-- Claim phase 5: consume prop_stop — call do_stop(). -/
def prop_stop_phase (e : engine) (sid : Nat) : engine :=
  if (getS e sid).prop_stop then
    do_stop (updS e sid (fun s => { s with prop_stop := false })) sid
  else e

/-- service_set::process_queues.  The implementation lives in service.h
(outside this snapshot); modelled from the spec (section 4.1): drain the
propagate queue, then start, then stop, re-examining in that order until
quiescent.  Fuel-indexed; every concrete scenario below quiesces well
within its fuel. -/
def run_queues (e : engine) (env : osEnv) : Nat → engine
  | 0 => e
  | fuel + 1 =>
    match e.prop_queue with
    | sid :: rest =>
        run_queues (do_propagation { e with prop_queue := rest } sid) env fuel
    | [] =>
      match e.start_queue with
      | sid :: rest =>
          run_queues (execute_transition { e with start_queue := rest } sid env)
            env fuel
      | [] =>
        match e.stop_queue with
        | sid :: rest =>
            run_queues (execute_transition { e with stop_queue := rest } sid env)
              env fuel
        | [] => e

/-! ## Control utility (src/dinitctl.cc)

The utility's observable behaviour relevant to the claims is its process
exit code as a function of the daemon's replies.  The reply stream is
abstracted: the cpbuffer/socket plumbing (cpbuffer.h, dinit-client.h,
outside this snapshot) either yields a decoded reply or fails, which the
reply stream encodes directly.  Write failures are modelled as flags. -/

/-- The decoded reply to the initial LOADSERVICE/FINDSERVICE command, as
classified by check_load_reply (dinitctl.cc lines 448-468): a service
record with state and handle, NOSERVICE, or any other (protocol-error)
byte. -/
inductive load_reply where
  | servicerecord (state : service_state_t) (handle : Nat)
  | noservice
  | protoerr
  deriving DecidableEq, Repr

/-- The decoded reply to the start/stop command packet (dinitctl.cc lines
330-341): ALREADYSS, ACK, or any other (protocol-error) byte. -/
inductive cmd_reply where
  | alreadyss
  | ack
  | other
  deriving DecidableEq, Repr

/-- One packet read while waiting for the service event (dinitctl.cc lines
364-404): an information packet that is a SERVICEEVENT (with handle and
event), some other information packet (byte ≥ 100), or a non-information
byte, which is a protocol error. -/
inductive info_packet where
  | serviceevent (handle : Nat) (event : service_event)
  | otherinfo
  | notinfo
  deriving DecidableEq, Repr

/-- The dinitctl commands routed to start_stop_service (dinitctl.cc
command_t, restricted to those start_stop_service handles). -/
inductive ctl_command where
  | START_SERVICE
  | WAKE_SERVICE
  | STOP_SERVICE
  | RELEASE_SERVICE
  deriving DecidableEq, Repr

/-- The daemon-side interaction of one start_stop_service run. -/
structure ctl_env where
  load_write_ok : Bool
  load_reply_v : load_reply
  cmd_write_ok : Bool
  cmd_reply_v : cmd_reply
  infos : List info_packet
  deriving DecidableEq, Repr

/-- The event-wait loop of start_stop_service (dinitctl.cc lines 363-412):
scan packets; a non-information byte is a protocol error (1); a matching
SERVICEEVENT yields 0 on the completion event, 1 on the cancellation event,
1 on FAILEDSTART for a start-type command; anything else is skipped.  An
exhausted stream models the read failure / connection close paths (1). -/
def ctl_wait_loop (handle : Nat) (do_stop_cmd : Bool)
    (completion cancelled : service_event) : List info_packet → Int
  | [] => 1
  | info_packet.notinfo :: _ => 1
  | info_packet.otherinfo :: rest =>
      ctl_wait_loop handle do_stop_cmd completion cancelled rest
  | info_packet.serviceevent h evt :: rest =>
      if h = handle then
        if evt = completion then 0
        else if evt = cancelled then 1
        else if ¬ do_stop_cmd ∧ evt = service_event.FAILEDSTART then 1
        else ctl_wait_loop handle do_stop_cmd completion cancelled rest
      else ctl_wait_loop handle do_stop_cmd completion cancelled rest

/-- start_stop_service (dinitctl.cc lines 267-413): issue the load, decode
the reply — note the transcription mirrors the source exactly: a failed
check_load_reply (NOSERVICE or protocol error) makes start_stop_service
return 0 — then write the start/stop packet, accept ALREADYSS (0) or ACK,
and unless --no-wait, wait for the matching service event. -/
def start_stop_service (command : ctl_command) (wait_for_service : Bool)
    (env : ctl_env) : Int :=
  let do_stop_cmd := command = ctl_command.STOP_SERVICE ∨
    command = ctl_command.RELEASE_SERVICE
  if ¬ env.load_write_ok then 1
  else
    match env.load_reply_v with
    | load_reply.noservice => 0
    | load_reply.protoerr => 0
    | load_reply.servicerecord _ handle =>
      if ¬ env.cmd_write_ok then 1
      else
        match env.cmd_reply_v with
        | cmd_reply.alreadyss => 0
        | cmd_reply.other => 1
        | cmd_reply.ack =>
          if ¬ wait_for_service then 0
          else
            let completion := if do_stop_cmd then service_event.STOPPED
              else service_event.STARTED
            let cancelled := if do_stop_cmd then service_event.STOPCANCELLED
              else service_event.STARTCANCELLED
            ctl_wait_loop handle do_stop_cmd completion cancelled env.infos

/-- The command buffer allocation size in unpin_service (dinitctl.cc line
494: `new char[1 + sizeof(handle)]`), as a function of sizeof(handle). -/
def unpin_cmdbuf_size (sizeof_handle : Nat) : Nat := 1 + sizeof_handle

/-- The length passed to write_all for that buffer in unpin_service
(dinitctl.cc line 498: `write_all(socknum, buf, 2 + sizeof(handle))`). -/
def unpin_write_len (sizeof_handle : Nat) : Nat := 2 + sizeof_handle

/-- The command buffer allocation size in unload_service (dinitctl.cc line
544: `new char[1 + sizeof(handle)]`). -/
def unload_cmdbuf_size (sizeof_handle : Nat) : Nat := 1 + sizeof_handle

/-- The length passed to write_all for that buffer in unload_service
(dinitctl.cc line 548: `write_all(socknum, buf, 2 + sizeof(handle))`). -/
def unload_write_len (sizeof_handle : Nat) : Nat := 2 + sizeof_handle

/-! ## Observation measures used by the verification -/

/-- The (required_by, start_explicit) pair of a record — the quantities
whose evolution the activation claims track. -/
def rbsx (e : engine) (sid : Nat) : Int × Bool :=
  ((getS e sid).required_by, (getS e sid).start_explicit)

/-- The (prop_require, prop_release) pair of a record — the sticky bits
whose cancellation the require/release claims track. -/
def prb (e : engine) (sid : Nat) : Bool × Bool :=
  ((getS e sid).prop_require, (getS e sid).prop_release)

/-- The (pid, exit_status) pair of a record — the stored child identity
and status that the exactly-once exit-handling claim tracks. -/
def pde (e : engine) (sid : Nat) : Int × Nat :=
  ((getS e sid).pid, (getS e sid).exit_status)

/-- noHx: every event except a handle_exit_status dispatch. -/
def noHx : ev → Bool := fun v => match v with
  | ev.hexit _ _ => false
  | _ => true

/-- HFree e e': e' extends e's trace purely by events that are not
handle_exit_status dispatches. -/
def HFree (e e' : engine) : Prop :=
  ∃ t, e'.trace = e.trace ++ t ∧ t.all noHx = true

/-! ## Concrete scenarios for the claim witnesses and counterexamples -/

/-- A quiescent engine over the given records (empty queues, empty trace). -/
def engOf (l : List sstate) : engine :=
  { svcs := l, prop_queue := [], start_queue := [], stop_queue := []
  , console_queue := [], active_services := 1, global_auto_restart := false
  , trace := [] }

/-- C1 scenario: a PROCESS service mid-start with an activation socket. -/
def c1svc : sstate :=
  { sstate.dfl with
      record_type := service_type.PROCESS
    , service_state := service_state_t.STARTING
    , desired_state := service_state_t.STARTED
    , socket_path := "/run/svc.sock" }

def c1eng : engine := engOf [c1svc]

/-- C1 scenario oracle: the socket bind fails, the later fork succeeds. -/
def c1env : osEnv := { osEnv.ok with bind_ok := false, fork_pid := 5 }

/-- C2 scenario: a started BGPROCESS with a live child, being stopped. -/
def c2svc : sstate :=
  { sstate.dfl with
      record_type := service_type.BGPROCESS
    , service_state := service_state_t.STARTED
    , desired_state := service_state_t.STOPPED
    , pid := 100 }

def c2eng : engine := engOf [c2svc]

/-- C2 scenario oracle: waitpid reaps the child (returns its pid). -/
def c2env : osEnv := { osEnv.ok with waitpid_r := 100 }

/-- C3 scenario: a PROCESS service forked and still awaiting the
exec-status pipe event. -/
def c3svc : sstate :=
  { sstate.dfl with
      record_type := service_type.PROCESS
    , service_state := service_state_t.STARTING
    , desired_state := service_state_t.STARTED
    , pid := 42
    , waiting_for_execstat := true }

def c3eng : engine := engOf [c3svc]

/-- C3 counterexample oracle: the pipe read yields the child's errno
(exec failed). -/
def c3envF : osEnv := { osEnv.ok with pipe_r := 4 }

/-- C4/C7 scenario: a single quiescent inactive record. -/
def c47svc : sstate := sstate.dfl

def c47eng : engine := engOf [c47svc]

/-- C5 scenario: record 0 has a pending require propagation with one hard
and one soft dependency on record 1. -/
def c5svc : sstate :=
  { sstate.dfl with
      prop_require := true
    , depends_on := [1]
    , soft_deps := [{ to_sid := 1, holding_acq := false, waiting_on := false }] }

def c5eng : engine := engOf [c5svc, sstate.dfl]

/-- C6 scenario: a restarting PROCESS last started at t = 1000 with a
200ns restart delay. -/
def c6svc : sstate :=
  { sstate.dfl with
      record_type := service_type.PROCESS
    , service_state := service_state_t.STARTING
    , restarting := true
    , last_start_time := 1000
    , restart_delay := 200 }

def c6eng : engine := engOf [c6svc]

/-- C6 counterexample oracle: now − last_start_time equals restart_delay
exactly. -/
def c6envEq : osEnv := { osEnv.ok with now := 1200 }

/-- C6 witness oracle: now − last_start_time strictly exceeds
restart_delay. -/
def c6envGt : osEnv := { osEnv.ok with now := 1300 }

/-- C8 scenario: a SCRIPTED service running its stop command. -/
def c8svc : sstate :=
  { sstate.dfl with
      record_type := service_type.SCRIPTED
    , service_state := service_state_t.STOPPING
    , stop_command := "stop" }

def c8eng : engine := engOf [c8svc]

/-- C9 scenario: the daemon's reply to the load command is an unexpected
byte (a protocol error); everything later would succeed. -/
def c9env : ctl_env :=
  { load_write_ok := true, load_reply_v := load_reply.protoerr
  , cmd_write_ok := true, cmd_reply_v := cmd_reply.ack, infos := [] }

/-- C9 scenario variant: the daemon replies NOSERVICE. -/
def c9envNs : ctl_env := { c9env with load_reply_v := load_reply.noservice }

/-! # Basic state lemmas -/

theorem getS_setS (e : engine) (i j : Nat) (s : sstate) :
    getS (setS e i s) j = if i = j ∧ i < e.svcs.length then s else getS e j := by
  simp only [getS, setS, List.getD_eq_getElem?_getD, List.getElem?_set]
  by_cases h1 : i = j
  · subst h1
    by_cases h2 : i < e.svcs.length
    · simp [h2]
    · simp [h2, List.getElem?_eq_none (Nat.le_of_not_lt h2)]
  · simp [h1]

theorem getS_updS (e : engine) (i j : Nat) (f : sstate → sstate) :
    getS (updS e i f) j =
      if i = j ∧ i < e.svcs.length then f (getS e i) else getS e j := by
  simp [updS, getS_setS]

theorem getS_updS_self (e : engine) (i : Nat) (f : sstate → sstate)
    (h : i < e.svcs.length) : getS (updS e i f) i = f (getS e i) := by
  simp [getS_updS, h]

theorem getS_emit (e : engine) (v : ev) (j : Nat) : getS (emit e v) j = getS e j := rfl

theorem svcs_emit (e : engine) (v : ev) : (emit e v).svcs = e.svcs := rfl

theorem len_setS (e : engine) (i : Nat) (s : sstate) :
    (setS e i s).svcs.length = e.svcs.length := by
  simp [setS]

theorem len_updS (e : engine) (i : Nat) (f : sstate → sstate) :
    (updS e i f).svcs.length = e.svcs.length := by
  simp [updS, len_setS]

theorem getS_addToPropQueue (e : engine) (i j : Nat) :
    getS (addToPropQueue e i) j = getS e j := by
  simp only [addToPropQueue]
  split <;> rfl

theorem getS_addToStartQueue (e : engine) (i j : Nat) :
    getS (addToStartQueue e i) j = getS e j := by
  simp only [addToStartQueue]
  split <;> rfl

theorem getS_addToStopQueue (e : engine) (i j : Nat) :
    getS (addToStopQueue e i) j = getS e j := by
  simp only [addToStopQueue]
  split <;> rfl

theorem getS_service_active (e : engine) (j : Nat) :
    getS (service_active e) j = getS e j := rfl

theorem getS_service_inactive (e : engine) (j : Nat) :
    getS (service_inactive e) j = getS e j := rfl

theorem getS_notifyListeners (e : engine) (i j : Nat) (v : service_event) :
    getS (notifyListeners e i v) j = getS e j := rfl

theorem svcs_addToPropQueue (e : engine) (i : Nat) :
    (addToPropQueue e i).svcs = e.svcs := by
  simp only [addToPropQueue]; split <;> rfl

theorem svcs_addToStartQueue (e : engine) (i : Nat) :
    (addToStartQueue e i).svcs = e.svcs := by
  simp only [addToStartQueue]; split <;> rfl

theorem svcs_addToStopQueue (e : engine) (i : Nat) :
    (addToStopQueue e i).svcs = e.svcs := by
  simp only [addToStopQueue]; split <;> rfl

theorem foldl_inv {α : Type _} {β : Type _} {P : α → Prop} {f : α → β → α}
    (h : ∀ a b, P a → P (f a b)) :
    ∀ (l : List β) (a : α), P a → P (l.foldl f a) := by
  intro l
  induction l with
  | nil => intro a ha; exact ha
  | cons x xs ih => intro a ha; exact ih (f a x) (h a x ha)

/-! # Frame lemmas for the required_by / start_explicit pair (claim C7) -/

theorem rbsx_updS (e : engine) (i sid : Nat) (f : sstate → sstate)
    (hf : ∀ s, (f s).required_by = s.required_by ∧ (f s).start_explicit = s.start_explicit) :
    rbsx (updS e i f) sid = rbsx e sid := by
  simp only [rbsx, getS_updS]
  split
  · next h => obtain ⟨rfl, -⟩ := h; rw [(hf _).1, (hf _).2]
  · rfl

theorem rbsx_emit (e : engine) (v : ev) (sid : Nat) : rbsx (emit e v) sid = rbsx e sid := rfl

theorem rbsx_queues (e : engine) (i sid : Nat) :
    rbsx (addToPropQueue e i) sid = rbsx e sid ∧
    rbsx (addToStartQueue e i) sid = rbsx e sid ∧
    rbsx (addToStopQueue e i) sid = rbsx e sid := by
  refine ⟨?_, ?_, ?_⟩ <;>
    simp [rbsx, getS_addToPropQueue, getS_addToStartQueue, getS_addToStopQueue]

theorem rbsx_startCheckDeps_hardT (e : engine) (i sid : Nat) :
    rbsx (startCheckDeps_hardT e i).1 sid = rbsx e sid := by
  have := foldl_inv (P := fun (p : engine × Bool) => rbsx p.1 sid = rbsx e sid)
    (f := fun acc d =>
      if (getS acc.1 d).service_state ≠ service_state_t.STARTED then
        (addToPropQueue (updS acc.1 d (fun s => { s with prop_start := true })) d, false)
      else acc)
    ?_ (getS e i).depends_on (e, true) rfl
  · exact this
  · intro a b ha
    dsimp only
    split
    · simp only
      rw [(rbsx_queues _ _ _).1, rbsx_updS]
      · exact ha
      · intro s; exact ⟨rfl, rfl⟩
    · exact ha

theorem rbsx_startCheckDeps_softT (e : engine) (i sid : Nat) (b : Bool) :
    rbsx (startCheckDeps_softT e i b).1 sid = rbsx e sid := by
  have := foldl_inv (P := fun (p : engine × Bool) => rbsx p.1 sid = rbsx e sid)
    (f := fun (acc : engine × Bool) k =>
      let e := acc.1
      let edge := (getS e i).soft_deps.getD k default
      if (getS e edge.to_sid).service_state ≠ service_state_t.STARTED then
        let e := updS e edge.to_sid (fun s => { s with prop_start := true })
        let e := addToPropQueue e edge.to_sid
        let e := updS e i (fun s =>
          { s with soft_deps := s.soft_deps.set k { edge with waiting_on := true } })
        (e, false)
      else
        let e := updS e i (fun s =>
          { s with soft_deps := s.soft_deps.set k { edge with waiting_on := false } })
        (e, acc.2))
    ?_ (List.range (getS e i).soft_deps.length) (e, b) rfl
  · exact this
  · intro a k ha
    dsimp only
    split
    · rw [rbsx_updS, (rbsx_queues _ _ _).1, rbsx_updS]
      · exact ha
      · intro s; exact ⟨rfl, rfl⟩
      · intro s; exact ⟨rfl, rfl⟩
    · rw [rbsx_updS]
      · exact ha
      · intro s; exact ⟨rfl, rfl⟩

theorem rbsx_startCheckDependenciesT (e : engine) (i sid : Nat) :
    rbsx (startCheckDependenciesT e i).1 sid = rbsx e sid := by
  unfold startCheckDependenciesT
  rw [rbsx_startCheckDeps_softT, rbsx_startCheckDeps_hardT]

theorem rbsx_service_active (e : engine) (sid : Nat) :
    rbsx (service_active e) sid = rbsx e sid := rfl

theorem rbsx_notifyListeners (e : engine) (i sid : Nat) (v : service_event) :
    rbsx (notifyListeners e i v) sid = rbsx e sid := rfl

set_option maxHeartbeats 1000000 in
theorem rbsx_start_core (e : engine) (sid : Nat) :
    rbsx (start_core e sid) sid = rbsx e sid := by
  unfold start_core
  dsimp only
  repeat' split
  all_goals
    repeat
      first
      | rw [rbsx_notifyListeners]
      | rw [rbsx_service_active]
      | rw [(rbsx_queues _ _ _).2.1]
      | rw [rbsx_startCheckDependenciesT]
      | refine Eq.trans (rbsx_updS _ _ _ _ (by intro s; exact ⟨rfl, rfl⟩)) ?_
      | rfl

theorem rbsx_activation (e : engine) (sid : Nat) (h : sid < e.svcs.length) :
    rbsx (updS (require e sid) sid (fun s => { s with start_explicit := true })) sid =
      ((getS e sid).required_by + 1, true) := by
  simp only [rbsx, require]
  split
  · simp [getS_updS, getS_emit, getS_addToPropQueue, len_updS, svcs_emit,
      svcs_addToPropQueue, h]
  · simp [getS_updS, getS_emit, len_updS, svcs_emit, h]

theorem start_rbsx_act (e : engine) (sid : Nat) (h1 : sid < e.svcs.length)
    (h3 : (getS e sid).start_explicit = false) :
    rbsx (start e sid true) sid = ((getS e sid).required_by + 1, true) := by
  have h' : (getS (emit e (ev.strt sid true)) sid).start_explicit = false := by
    rw [getS_emit]; exact h3
  have hlen : sid < (emit e (ev.strt sid true)).svcs.length := by
    rw [svcs_emit]; exact h1
  simp only [start, h', Bool.false_eq_true, not_false_iff, and_true, if_true, true_and]
  rw [rbsx_start_core, rbsx_activation _ _ hlen, getS_emit]

theorem start_rbsx_noact (e : engine) (sid : Nat) (activate : Bool)
    (h : (getS e sid).start_explicit = true) :
    rbsx (start e sid activate) sid = rbsx e sid := by
  have h' : (getS (emit e (ev.strt sid activate)) sid).start_explicit = true := by
    rw [getS_emit]; exact h
  simp only [start, h', not_true, and_false, if_false]
  rw [rbsx_start_core, rbsx_emit]

theorem getS_queue_for_console (e : engine) (i j : Nat) :
    getS (queue_for_console e i) j = getS e j := rfl

theorem getS_release_console (e : engine) (j : Nat) :
    getS (release_console e) j = getS e j := rfl

theorem getS_unqueue_console (e : engine) (i j : Nat) :
    getS (unqueue_console e i) j = getS e j := rfl

theorem trace_updS (e : engine) (i : Nat) (f : sstate → sstate) :
    (updS e i f).trace = e.trace := rfl

theorem trace_setS (e : engine) (i : Nat) (s : sstate) :
    (setS e i s).trace = e.trace := rfl

theorem prop_queue_emit (e : engine) (v : ev) : (emit e v).prop_queue = e.prop_queue := rfl

theorem prop_queue_updS (e : engine) (i : Nat) (f : sstate → sstate) :
    (updS e i f).prop_queue = e.prop_queue := rfl

/-! The engine operations are opaque for the lemma development below (their
content is consumed through `unfold` and the projection lemmas above); they
are restored to normal reducibility before the concrete evaluations. -/
attribute [irreducible] emit updS setS addToPropQueue addToStartQueue
  addToStopQueue service_active service_inactive queue_for_console
  release_console unqueue_console forceStop dependentStopped
  dependencyStarted require notifyListeners stopCheckDependents
  stopDependents interrupt_start do_stop_rest do_stop_noexp release_tail
  release_gen release_inner do_stop release release_dependencies
  startCheckDeps_hardT startCheckDeps_softT startCheckDependenciesT
  startCheckDeps_softF startCheckDependenciesF start_core start
  stopped_soft_release stopped_signal_deps stopped started_wake_dependents
  started fts_fail_dependents fts_wake_soft failed_to_start emergency_stop
  open_socket start_ps_process_cmd do_restart restart_ps_process
  start_ps_process allDepsStarted process_handle_exit_status read_pid_file
  scripted_handle_exit_status handle_exit_status
  status_change fd_event base_process_all_deps_stopped
  scripted_all_deps_stopped all_deps_stopped execute_transition
  do_propagation req_soft_step prop_require_phase prop_release_phase
  prop_failure_phase prop_start_phase prop_stop_phase

/-! # HFree: trace extension without handle_exit_status dispatches -/

theorem HFree.refl (e : engine) : HFree e e := ⟨[], by simp, by simp⟩

theorem HFree.trans {e1 e2 e3 : engine} (h1 : HFree e1 e2) (h2 : HFree e2 e3) :
    HFree e1 e3 := by
  obtain ⟨t1, ht1, ha1⟩ := h1
  obtain ⟨t2, ht2, ha2⟩ := h2
  exact ⟨t1 ++ t2, by simp [ht2, ht1], by simp_all⟩

theorem HFree_emit (e : engine) (v : ev) (h : noHx v = true) : HFree e (emit e v) :=
  ⟨[v], by simp [emit], by simp [h]⟩

theorem HFree_updS (e : engine) (i : Nat) (f : sstate → sstate) :
    HFree e (updS e i f) := ⟨[], by simp [updS, setS], by simp⟩

theorem HFree_queues (e : engine) (i : Nat) :
    HFree e (addToPropQueue e i) ∧ HFree e (addToStartQueue e i) ∧
    HFree e (addToStopQueue e i) := by
  refine ⟨⟨[], ?_, by simp⟩, ⟨[], ?_, by simp⟩, ⟨[], ?_, by simp⟩⟩ <;>
    simp only [addToPropQueue, addToStartQueue, addToStopQueue] <;> split <;> simp

theorem HFree_counters (e : engine) :
    HFree e (service_active e) ∧ HFree e (service_inactive e) :=
  ⟨⟨[], by simp [service_active], by simp⟩, ⟨[], by simp [service_inactive], by simp⟩⟩

theorem HFree_console (e : engine) (i : Nat) :
    HFree e (queue_for_console e i) ∧ HFree e (release_console e) ∧
    HFree e (unqueue_console e i) :=
  ⟨⟨[], by simp [queue_for_console], by simp⟩,
   ⟨[], by simp [release_console], by simp⟩,
   ⟨[], by simp [unqueue_console], by simp⟩⟩

theorem HFree_release_console (e : engine) : HFree e (release_console e) :=
  (HFree_console e 0).2.1

theorem HFree_notifyListeners (e : engine) (i : Nat) (v : service_event) :
    HFree e (notifyListeners e i v) := by
  unfold notifyListeners
  exact HFree_emit e (ev.notifyEv i v) rfl

theorem HFree_forceStop (e : engine) (i : Nat) : HFree e (forceStop e i) := by
  unfold forceStop
  split
  · exact (HFree_updS e i _).trans (HFree_queues _ i).2.2
  · exact HFree.refl e

theorem HFree_dependentStopped (e : engine) (i : Nat) :
    HFree e (dependentStopped e i) := by
  unfold dependentStopped
  split
  · exact (HFree_queues e i).2.2
  · exact HFree.refl e

theorem HFree_dependencyStarted (e : engine) (i : Nat) :
    HFree e (dependencyStarted e i) := by
  unfold dependencyStarted
  split
  · exact (HFree_queues e i).2.1
  · exact HFree.refl e

theorem HFree_require (e : engine) (i : Nat) : HFree e (require e i) := by
  unfold require
  dsimp only
  split
  · exact ((HFree_emit e (ev.req i) rfl).trans (HFree_updS _ i _)).trans
      ((HFree_updS _ i _).trans (HFree_queues _ i).1)
  · exact (HFree_emit e (ev.req i) rfl).trans (HFree_updS _ i _)

theorem HFree_stopDependents (e : engine) (i : Nat) :
    HFree e (stopDependents e i).1 := by
  unfold stopDependents
  refine foldl_inv (P := fun (p : engine × Bool) => HFree e p.1) ?_ _ _ (HFree.refl e)
  intro a b ha
  dsimp only
  refine HFree.trans ha ?_
  split
  · exact (HFree_forceStop a.1 b).trans ((HFree_updS _ b _).trans (HFree_queues _ b).1)
  · exact (HFree_updS a.1 b _).trans (HFree_queues _ b).1

theorem HFree_interrupt_start (e : engine) (i : Nat) :
    HFree e (interrupt_start e i) := by
  unfold interrupt_start
  split
  · exact (HFree_console e i).2.2
  · split
    · exact (HFree_updS e i _).trans (HFree_console _ i).2.2
    · exact (HFree_console e i).2.2

theorem HFree_do_stop_rest (e : engine) (i : Nat) : HFree e (do_stop_rest e i) := by
  unfold do_stop_rest
  dsimp only
  split
  · split
    · split
      · exact HFree_stopDependents e i
      · split
        · exact ((HFree_notifyListeners e i service_event.STARTCANCELLED).trans
            ((HFree_interrupt_start _ i).trans (HFree_updS _ i _))).trans
            ((HFree_stopDependents _ i).trans (HFree_queues _ i).2.2)
        · exact ((HFree_notifyListeners e i service_event.STARTCANCELLED).trans
            ((HFree_interrupt_start _ i).trans (HFree_updS _ i _))).trans
            (HFree_stopDependents _ i)
    · exact HFree.refl e
  · split
    · exact (HFree_updS e i _).trans
        ((HFree_stopDependents _ i).trans (HFree_queues _ i).2.2)
    · exact (HFree_updS e i _).trans (HFree_stopDependents _ i)

theorem HFree_do_stop_noexp (e : engine) (i : Nat) : HFree e (do_stop_noexp e i) := by
  unfold do_stop_noexp
  dsimp only
  split
  · exact HFree_emit e (ev.dstop i) rfl
  · exact (HFree_emit e (ev.dstop i) rfl).trans (HFree_do_stop_rest _ i)

theorem HFree_release_tail (dstp : engine → Nat → engine) (i : Nat)
    (hd : ∀ e', HFree e' (dstp e' i)) (e : engine) :
    HFree e (release_tail dstp e i) := by
  unfold release_tail
  dsimp only
  split
  · exact ((HFree_updS e i _).trans ((HFree_updS _ i _).trans (HFree_queues _ i).1)).trans
      (HFree_counters _).2
  · exact ((HFree_updS e i _).trans ((HFree_updS _ i _).trans (HFree_queues _ i).1)).trans
      (hd _)

theorem HFree_release_gen (dstp : engine → Nat → engine) (i : Nat)
    (hd : ∀ e', HFree e' (dstp e' i)) (e : engine) :
    HFree e (release_gen dstp e i) := by
  unfold release_gen
  dsimp only
  split
  · exact ((HFree_emit e (ev.rel i) rfl).trans (HFree_updS _ i _)).trans
      (HFree_release_tail dstp i hd _)
  · exact (HFree_emit e (ev.rel i) rfl).trans (HFree_updS _ i _)

theorem HFree_release_inner (e : engine) (i : Nat) : HFree e (release_inner e i) := by
  unfold release_inner
  exact HFree_release_gen do_stop_noexp i (fun e' => HFree_do_stop_noexp e' i) e

theorem HFree_do_stop (e : engine) (i : Nat) : HFree e (do_stop e i) := by
  unfold do_stop
  dsimp only
  split
  · exact HFree_emit e (ev.dstop i) rfl
  · split
    · split
      · exact (HFree_emit e (ev.dstop i) rfl).trans
          ((HFree_updS _ i _).trans (HFree_release_inner _ i))
      · exact (HFree_emit e (ev.dstop i) rfl).trans
          (((HFree_updS _ i _).trans (HFree_release_inner _ i)).trans
            (HFree_do_stop_rest _ i))
    · exact (HFree_emit e (ev.dstop i) rfl).trans (HFree_do_stop_rest _ i)

theorem HFree_release (e : engine) (i : Nat) : HFree e (release e i) := by
  unfold release
  exact HFree_release_gen do_stop i (fun e' => HFree_do_stop e' i) e

theorem HFree_release_dependencies (e : engine) (i : Nat) :
    HFree e (release_dependencies e i) := by
  unfold release_dependencies
  dsimp only
  have h1 : HFree e ((getS e i).depends_on.foldl (fun e d => release e d) e) :=
    foldl_inv (P := fun x => HFree e x)
      (fun a b ha => ha.trans (HFree_release a b)) _ e (HFree.refl e)
  refine HFree.trans h1 ?_
  refine foldl_inv (P := fun x => HFree _ x) ?_ _ _ (HFree.refl _)
  intro a b ha
  dsimp only
  split
  · exact ha.trans ((HFree_release a _).trans (HFree_updS _ i _))
  · exact ha

theorem HFree_startCheckDeps_hardT (e : engine) (i : Nat) :
    HFree e (startCheckDeps_hardT e i).1 := by
  unfold startCheckDeps_hardT
  refine foldl_inv (P := fun (p : engine × Bool) => HFree e p.1) ?_ _ _ (HFree.refl e)
  intro a b ha
  dsimp only
  split
  · exact ha.trans ((HFree_updS a.1 b _).trans (HFree_queues _ b).1)
  · exact ha

theorem HFree_startCheckDeps_softT (e : engine) (i : Nat) (b0 : Bool) :
    HFree e (startCheckDeps_softT e i b0).1 := by
  unfold startCheckDeps_softT
  refine foldl_inv (P := fun (p : engine × Bool) => HFree e p.1) ?_ _ _ (HFree.refl e)
  intro a k ha
  dsimp only
  split
  · exact ha.trans (((HFree_updS a.1 _ _).trans (HFree_queues _ _).1).trans
      (HFree_updS _ i _))
  · exact ha.trans (HFree_updS a.1 i _)

theorem HFree_startCheckDependenciesT (e : engine) (i : Nat) :
    HFree e (startCheckDependenciesT e i).1 := by
  unfold startCheckDependenciesT
  exact (HFree_startCheckDeps_hardT e i).trans (HFree_startCheckDeps_softT _ i _)

theorem HFree_startCheckDeps_softF (e : engine) (i : Nat) :
    HFree e (startCheckDeps_softF e i).1 := by
  unfold startCheckDeps_softF
  dsimp only
  refine foldl_inv (P := fun (p : engine × Option Bool) => HFree e p.1) ?_ _ _
    (HFree.refl e)
  intro a k ha
  dsimp only
  split
  · exact ha
  · split
    · split
      · exact ha.trans (HFree_updS a.1 i _)
      · exact ha
    · exact ha

theorem HFree_startCheckDependenciesF (e : engine) (i : Nat) :
    HFree e (startCheckDependenciesF e i).1 := by
  unfold startCheckDependenciesF
  split
  · exact HFree_startCheckDeps_softF e i
  · exact HFree.refl e

theorem HFree_start_core (e : engine) (i : Nat) : HFree e (start_core e i) := by
  unfold start_core
  dsimp only
  split
  · exact HFree.refl e
  · split
    · split
      · exact HFree_updS e i _
      · split
        · exact (((HFree_updS e i _).trans
            (HFree_notifyListeners _ i service_event.STOPCANCELLED)).trans
            ((HFree_updS _ i _).trans (HFree_startCheckDependenciesT _ i))).trans
            (HFree_queues _ i).2.1
        · exact ((HFree_updS e i _).trans
            (HFree_notifyListeners _ i service_event.STOPCANCELLED)).trans
            ((HFree_updS _ i _).trans (HFree_startCheckDependenciesT _ i))
    · split
      · split
        · exact (((HFree_updS e i _).trans (HFree_counters _).1).trans
            ((HFree_updS _ i _).trans (HFree_startCheckDependenciesT _ i))).trans
            (HFree_queues _ i).2.1
        · exact ((HFree_updS e i _).trans (HFree_counters _).1).trans
            ((HFree_updS _ i _).trans (HFree_startCheckDependenciesT _ i))
      · split
        · exact ((HFree_updS e i _).trans
            ((HFree_updS _ i _).trans (HFree_startCheckDependenciesT _ i))).trans
            (HFree_queues _ i).2.1
        · exact (HFree_updS e i _).trans
            ((HFree_updS _ i _).trans (HFree_startCheckDependenciesT _ i))

theorem HFree_start (e : engine) (i : Nat) (activate : Bool) :
    HFree e (start e i activate) := by
  unfold start
  dsimp only
  have h1 : HFree e (emit e (ev.strt i activate)) := HFree_emit e _ rfl
  refine HFree.trans h1 ?_
  refine HFree.trans ?_ (HFree_start_core _ i)
  split
  · exact (HFree_require _ i).trans (HFree_updS _ i _)
  · exact HFree.refl _

theorem HFree_stopped_soft_release (e : engine) (i : Nat) :
    HFree e (stopped_soft_release e i) := by
  unfold stopped_soft_release
  refine foldl_inv (P := fun x => HFree e x) ?_ _ _ (HFree.refl e)
  intro a b ha
  dsimp only
  split
  · exact ha.trans ((HFree_updS a _ _).trans (HFree_release _ i))
  · exact ha

theorem HFree_stopped_signal_deps (e : engine) (i : Nat) :
    HFree e (stopped_signal_deps e i) := by
  unfold stopped_signal_deps
  exact foldl_inv (P := fun x => HFree e x)
    (fun a b ha => ha.trans (HFree_dependentStopped a b)) _ e (HFree.refl e)

theorem HFree_stopped (e : engine) (i : Nat) : HFree e (stopped e i) := by
  unfold stopped
  dsimp only
  repeat' split
  all_goals
    repeat
      first
      | refine HFree.trans ?_ (HFree_notifyListeners _ _ _)
      | refine HFree.trans ?_ (HFree_start _ _ _)
      | refine HFree.trans ?_ (HFree_release _ _)
      | refine HFree.trans ?_ (HFree_counters _).2
      | refine HFree.trans ?_ (HFree_updS _ _ _)
      | refine HFree.trans ?_ (HFree_stopped_signal_deps _ _)
      | refine HFree.trans ?_ (HFree_stopped_soft_release _ _)
      | refine HFree.trans ?_ (HFree_release_console _)
      | refine HFree.trans ?_ (HFree_emit _ _ rfl)
      | exact HFree.refl _

theorem HFree_started_wake_dependents (e : engine) (i : Nat) :
    HFree e (started_wake_dependents e i) := by
  unfold started_wake_dependents
  dsimp only
  have h1 : HFree e ((getS e i).dependents.foldl (fun e d => dependencyStarted e d) e) :=
    foldl_inv (P := fun x => HFree e x)
      (fun a b ha => ha.trans (HFree_dependencyStarted a b)) _ e (HFree.refl e)
  refine h1.trans ?_
  exact foldl_inv (P := fun x =>
      HFree ((getS e i).dependents.foldl (fun e d => dependencyStarted e d) e) x)
    (fun a b ha => ha.trans (HFree_dependencyStarted a b.1)) _ _ (HFree.refl _)

theorem HFree_started (e : engine) (i : Nat) : HFree e (started e i) := by
  unfold started
  dsimp only
  repeat' split
  all_goals
    repeat
      first
      | refine HFree.trans ?_ (HFree_started_wake_dependents _ _)
      | refine HFree.trans ?_ (HFree_do_stop _ _)
      | refine HFree.trans ?_ (HFree_notifyListeners _ _ _)
      | refine HFree.trans ?_ (HFree_updS _ _ _)
      | refine HFree.trans ?_ (HFree_release_console _)
      | refine HFree.trans ?_ (HFree_emit _ _ rfl)
      | exact HFree.refl _

theorem HFree_fts_fail_dependents (e : engine) (i : Nat) :
    HFree e (fts_fail_dependents e i) := by
  unfold fts_fail_dependents
  refine foldl_inv (P := fun x => HFree e x) ?_ _ _ (HFree.refl e)
  intro a b ha
  dsimp only
  split
  · exact ha.trans ((HFree_updS a b _).trans (HFree_queues _ b).1)
  · exact ha

theorem HFree_fts_wake_soft (e : engine) (i : Nat) :
    HFree e (fts_wake_soft e i) := by
  unfold fts_wake_soft
  refine foldl_inv (P := fun x => HFree e x) ?_ _ _ (HFree.refl e)
  intro a b ha
  dsimp only
  split
  · exact ha.trans (((HFree_updS a _ _).trans (HFree_dependencyStarted _ b.1)).trans
      (HFree_release _ i))
  · exact ha

theorem HFree_failed_to_start (e : engine) (i : Nat) (depfailed : Bool) :
    HFree e (failed_to_start e i depfailed) := by
  unfold failed_to_start
  dsimp only
  repeat' split
  all_goals
    repeat
      first
      | refine HFree.trans ?_ (HFree_fts_wake_soft _ _)
      | refine HFree.trans ?_ (HFree_fts_fail_dependents _ _)
      | refine HFree.trans ?_ (HFree_notifyListeners _ _ _)
      | refine HFree.trans ?_ (HFree_release _ _)
      | refine HFree.trans ?_ (HFree_updS _ _ _)
      | refine HFree.trans ?_ (HFree_release_console _)
      | refine HFree.trans ?_ (HFree_emit _ _ rfl)
      | exact HFree.refl _

theorem HFree_emergency_stop (e : engine) (i : Nat) :
    HFree e (emergency_stop e i) := by
  unfold emergency_stop
  dsimp only
  repeat' split
  all_goals
    repeat
      first
      | refine HFree.trans ?_ (HFree_stopped _ _)
      | refine HFree.trans ?_ ⟨[], rfl, rfl⟩
      | refine HFree.trans ?_ (HFree_stopDependents _ _)
      | refine HFree.trans ?_ (HFree_forceStop _ _)
      | refine HFree.trans ?_ (HFree_release _ _)
      | refine HFree.trans ?_ (HFree_updS _ _ _)
      | exact HFree.refl _

theorem HFree_open_socket (e : engine) (i : Nat) (env : osEnv) :
    HFree e (open_socket e i env).1 := by
  unfold open_socket
  repeat' split
  all_goals
    first
    | exact HFree.refl e
    | exact HFree_emit e (ev.logMsg i) rfl
    | exact HFree_updS e i _

theorem HFree_start_ps_process_cmd (e : engine) (i : Nat) (env : osEnv) :
    HFree e (start_ps_process_cmd e i env).1 := by
  unfold start_ps_process_cmd
  dsimp only
  repeat' split
  all_goals
    repeat
      first
      | refine HFree.trans ?_ (HFree_updS _ _ _)
      | refine HFree.trans ?_ (HFree_emit _ _ rfl)
      | exact HFree.refl _

theorem HFree_do_restart (e : engine) (i : Nat) (env : osEnv) :
    HFree e (do_restart e i env) := by
  unfold do_restart
  dsimp only
  repeat' split
  all_goals
    repeat
      first
      | refine HFree.trans ?_ (HFree_start_ps_process_cmd _ _ env)
      | refine HFree.trans ?_ (HFree_failed_to_start _ _ _)
      | refine HFree.trans ?_ (HFree_forceStop _ _)
      | refine HFree.trans ?_ (HFree_updS _ _ _)
      | refine HFree.trans ?_ (HFree_emit _ _ rfl)
      | exact HFree.refl _

theorem HFree_restart_ps_process (e : engine) (i : Nat) (env : osEnv) :
    HFree e (restart_ps_process e i env).1 := by
  unfold restart_ps_process
  dsimp only
  repeat' split
  all_goals
    repeat
      first
      | refine HFree.trans ?_ (HFree_do_restart _ _ env)
      | refine HFree.trans ?_ (HFree_updS _ _ _)
      | refine HFree.trans ?_ (HFree_emit _ _ rfl)
      | exact HFree.refl _

theorem HFree_start_ps_process (e : engine) (i : Nat) (env : osEnv) :
    HFree e (start_ps_process e i env).1 := by
  unfold start_ps_process
  repeat' split
  all_goals
    repeat
      first
      | refine HFree.trans ?_ (HFree_started _ _)
      | refine HFree.trans ?_ (HFree_restart_ps_process _ _ env)
      | refine HFree.trans ?_ (HFree_start_ps_process_cmd _ _ env)
      | refine HFree.trans ?_ (HFree_updS _ _ _)
      | exact HFree.refl _

theorem HFree_read_pid_file (e : engine) (i : Nat) (o : pidOracle) (status : Nat) :
    HFree e (read_pid_file e i o status).1 := by
  unfold read_pid_file
  dsimp only
  repeat' split
  all_goals
    repeat
      first
      | refine HFree.trans ?_ (HFree_updS _ _ _)
      | refine HFree.trans ?_ (HFree_emit _ _ rfl)
      | exact HFree.refl _

theorem HFree_process_handle_exit_status (e : engine) (i : Nat) (status : Nat)
    (env : osEnv) : HFree e (process_handle_exit_status e i status env) := by
  unfold process_handle_exit_status
  dsimp only
  repeat' split
  all_goals
    repeat
      first
      | refine HFree.trans ?_ (HFree_emergency_stop _ _)
      | refine HFree.trans ?_ (HFree_restart_ps_process _ _ env)
      | refine HFree.trans ?_ (HFree_stopped _ _)
      | refine HFree.trans ?_ (HFree_started _ _)
      | refine HFree.trans ?_ (HFree_failed_to_start _ _ _)
      | refine HFree.trans ?_ (HFree_emit _ _ rfl)
      | exact HFree.refl _

theorem HFree_scripted_handle_exit_status (e : engine) (i : Nat) (status : Nat) :
    HFree e (scripted_handle_exit_status e i status) := by
  unfold scripted_handle_exit_status
  dsimp only
  repeat' split
  all_goals
    repeat
      first
      | refine HFree.trans ?_ (HFree_stopped _ _)
      | refine HFree.trans ?_ (HFree_started _ _)
      | refine HFree.trans ?_ (HFree_failed_to_start _ _ _)
      | refine HFree.trans ?_ (HFree_emit _ _ rfl)
      | exact HFree.refl _

set_option maxHeartbeats 4000000 in
theorem HFree_bgproc_handle_core (env : osEnv) : ∀ (fuel : Nat) (e : engine)
    (i : Nat) (status : Nat) (oracles : List pidOracle),
    HFree e (bgproc_handle_core e i status env oracles fuel) := by
  intro fuel
  induction fuel with
  | zero =>
    intro e i status oracles
    unfold bgproc_handle_core
    exact HFree.refl e
  | succ n ih =>
    intro e i status oracles
    unfold bgproc_handle_core
    dsimp only
    repeat' split
    all_goals
      repeat
        first
        | refine HFree.trans ?_ (HFree_emergency_stop _ _)
        | refine HFree.trans ?_ (HFree_restart_ps_process _ _ env)
        | refine HFree.trans ?_ (HFree_stopped _ _)
        | refine HFree.trans ?_ (HFree_started _ _)
        | refine HFree.trans ?_ (HFree_failed_to_start _ _ _)
        | refine HFree.trans ?_ (HFree_read_pid_file _ _ _ _)
        | refine HFree.trans ?_ (HFree_release _ _)
        | refine HFree.trans ?_ (HFree_forceStop _ _)
        | refine HFree.trans ?_ (HFree_stopDependents _ _)
        | refine HFree.trans ?_ (HFree_updS _ _ _)
        | refine HFree.trans ?_ (HFree_emit _ _ rfl)
        | refine HFree.trans ?_ (ih _ _ _ _)
        | exact HFree.refl _

theorem trace_emit (e : engine) (v : ev) : (emit e v).trace = e.trace ++ [v] := by
  unfold emit
  rfl

/-- The handle_exit_status dispatch appends exactly one `hexit` event,
followed only by non-dispatch events. -/
theorem hexit_decomp (e : engine) (i : Nat) (status : Nat) (env : osEnv) :
    ∃ t, (handle_exit_status e i status env).trace =
      e.trace ++ ev.hexit i status :: t ∧ t.all noHx = true := by
  have h : HFree (emit e (ev.hexit i status)) (handle_exit_status e i status env) := by
    unfold handle_exit_status
    dsimp only
    split
    · exact HFree.refl _
    · exact HFree_process_handle_exit_status _ i status env
    · exact HFree_bgproc_handle_core env _ _ i status _
    · exact HFree_scripted_handle_exit_status _ i status
  obtain ⟨t, ht, ha⟩ := h
  refine ⟨t, ?_, ha⟩
  rw [ht, trace_emit]
  simp

/-! # Frame lemmas for the pid / exit_status pair (claim C3) -/

theorem pde_updS (e : engine) (i sid : Nat) (f : sstate → sstate)
    (hf : ∀ s, (f s).pid = s.pid ∧ (f s).exit_status = s.exit_status) :
    pde (updS e i f) sid = pde e sid := by
  simp only [pde, getS_updS]
  split
  · next h => obtain ⟨rfl, -⟩ := h; rw [(hf _).1, (hf _).2]
  · rfl

theorem pde_emit (e : engine) (v : ev) (sid : Nat) : pde (emit e v) sid = pde e sid := by
  simp [pde, getS_emit]

theorem pde_queues (e : engine) (i sid : Nat) :
    pde (addToPropQueue e i) sid = pde e sid ∧
    pde (addToStartQueue e i) sid = pde e sid ∧
    pde (addToStopQueue e i) sid = pde e sid := by
  refine ⟨?_, ?_, ?_⟩ <;>
    simp [pde, getS_addToPropQueue, getS_addToStartQueue, getS_addToStopQueue]

theorem pde_counters (e : engine) (sid : Nat) :
    pde (service_active e) sid = pde e sid ∧
    pde (service_inactive e) sid = pde e sid := by
  constructor <;> simp [pde, getS_service_active, getS_service_inactive]

theorem pde_console (e : engine) (i sid : Nat) :
    pde (queue_for_console e i) sid = pde e sid ∧
    pde (release_console e) sid = pde e sid ∧
    pde (unqueue_console e i) sid = pde e sid := by
  refine ⟨?_, ?_, ?_⟩ <;>
    simp [pde, getS_queue_for_console, getS_release_console, getS_unqueue_console]

theorem pde_notifyListeners (e : engine) (i sid : Nat) (v : service_event) :
    pde (notifyListeners e i v) sid = pde e sid := by
  unfold notifyListeners
  exact pde_emit _ _ sid

theorem pde_forceStop (e : engine) (i sid : Nat) :
    pde (forceStop e i) sid = pde e sid := by
  unfold forceStop
  split
  · rw [(pde_queues _ _ _).2.2]
    exact pde_updS _ _ _ _ (fun s => ⟨rfl, rfl⟩)
  · rfl

theorem pde_dependentStopped (e : engine) (i sid : Nat) :
    pde (dependentStopped e i) sid = pde e sid := by
  unfold dependentStopped
  split
  · exact (pde_queues _ _ _).2.2
  · rfl

theorem pde_dependencyStarted (e : engine) (i sid : Nat) :
    pde (dependencyStarted e i) sid = pde e sid := by
  unfold dependencyStarted
  split
  · exact (pde_queues _ _ _).2.1
  · rfl

theorem pde_stopDependents (e : engine) (i sid : Nat) :
    pde (stopDependents e i).1 sid = pde e sid := by
  unfold stopDependents
  refine foldl_inv (P := fun (p : engine × Bool) => pde p.1 sid = pde e sid) ?_ _ _ rfl
  intro a b ha
  dsimp only
  rw [(pde_queues _ _ _).1]
  refine Eq.trans (pde_updS _ _ _ _ (fun s => ⟨rfl, rfl⟩)) ?_
  split
  · rw [pde_forceStop]; exact ha
  · exact ha

theorem pde_interrupt_start (e : engine) (i sid : Nat) :
    pde (interrupt_start e i) sid = pde e sid := by
  unfold interrupt_start
  split
  · exact (pde_console _ _ _).2.2
  · split
    · rw [(pde_console _ _ _).2.2]
      exact pde_updS _ _ _ _ (fun s => ⟨rfl, rfl⟩)
    · exact (pde_console _ _ _).2.2

theorem pde_do_stop_rest (e : engine) (i sid : Nat) :
    pde (do_stop_rest e i) sid = pde e sid := by
  unfold do_stop_rest
  dsimp only
  repeat' split
  all_goals
    repeat
      first
      | rw [(pde_queues _ _ _).2.2]
      | rw [pde_stopDependents]
      | rw [pde_interrupt_start]
      | rw [pde_notifyListeners]
      | refine Eq.trans (pde_updS _ _ _ _ (by intro s; exact ⟨rfl, rfl⟩)) ?_
      | rfl

theorem pde_do_stop_noexp (e : engine) (i sid : Nat) :
    pde (do_stop_noexp e i) sid = pde e sid := by
  unfold do_stop_noexp
  dsimp only
  split
  · exact pde_emit _ _ sid
  · rw [pde_do_stop_rest, pde_emit]

theorem pde_release_gen (dstp : engine → Nat → engine) (i sid : Nat)
    (hd : ∀ e', pde (dstp e' i) sid = pde e' sid) (e : engine) :
    pde (release_gen dstp e i) sid = pde e sid := by
  unfold release_gen release_tail
  dsimp only
  repeat' split
  all_goals
    repeat
      first
      | rw [hd]
      | rw [(pde_queues _ _ _).1]
      | rw [(pde_counters _ _).2]
      | rw [pde_emit]
      | refine Eq.trans (pde_updS _ _ _ _ (by intro s; exact ⟨rfl, rfl⟩)) ?_
      | rfl

theorem pde_release_inner (e : engine) (i sid : Nat) :
    pde (release_inner e i) sid = pde e sid := by
  unfold release_inner
  exact pde_release_gen do_stop_noexp i sid (fun e' => pde_do_stop_noexp e' i sid) e

theorem pde_do_stop (e : engine) (i sid : Nat) :
    pde (do_stop e i) sid = pde e sid := by
  unfold do_stop
  dsimp only
  repeat' split
  all_goals
    repeat
      first
      | rw [pde_do_stop_rest]
      | rw [pde_release_inner]
      | rw [pde_emit]
      | refine Eq.trans (pde_updS _ _ _ _ (by intro s; exact ⟨rfl, rfl⟩)) ?_
      | rfl

theorem pde_release (e : engine) (i sid : Nat) :
    pde (release e i) sid = pde e sid := by
  unfold release
  exact pde_release_gen do_stop i sid (fun e' => pde_do_stop e' i sid) e

theorem pde_started_wake_dependents (e : engine) (i sid : Nat) :
    pde (started_wake_dependents e i) sid = pde e sid := by
  unfold started_wake_dependents
  dsimp only
  have h1 : pde ((getS e i).dependents.foldl (fun e d => dependencyStarted e d) e) sid
      = pde e sid :=
    foldl_inv (P := fun x => pde x sid = pde e sid)
      (fun a b ha => by dsimp only; rw [pde_dependencyStarted]; exact ha) _ e rfl
  refine Eq.trans ?_ h1
  exact foldl_inv (P := fun x => pde x sid =
      pde ((getS e i).dependents.foldl (fun e d => dependencyStarted e d) e) sid)
    (fun a b ha => by dsimp only; rw [pde_dependencyStarted]; exact ha) _ _ rfl

theorem pde_started (e : engine) (i sid : Nat) :
    pde (started e i) sid = pde e sid := by
  unfold started
  dsimp only
  repeat' split
  all_goals
    repeat
      first
      | rw [pde_started_wake_dependents]
      | rw [pde_do_stop]
      | rw [pde_notifyListeners]
      | rw [(pde_console _ 0 _).2.1]
      | rw [pde_emit]
      | refine Eq.trans (pde_updS _ _ _ _ (by intro s; exact ⟨rfl, rfl⟩)) ?_
      | rfl

/-- C3 (amended): a child exit observed while `waiting_for_execstat` is
suppressed by the child watcher and replayed exactly once — with the stored
status — by the pipe watcher, provided the pipe reports exec success
(EOF). -/
theorem child_exit_replayed_once (e : engine) (sid : Nat) (st : Nat) (env : osEnv)
    (h1 : sid < e.svcs.length)
    (h2 : (getS e sid).waiting_for_execstat = true)
    (h3 : (getS e sid).record_type = service_type.PROCESS ∨
      (getS e sid).record_type = service_type.BGPROCESS)
    (h4 : env.pipe_r ≤ 0) :
    ∃ t1 t2, (fd_event (status_change e sid st env) sid env).trace =
      e.trace ++ t1 ++ ev.hexit sid st :: t2 ∧
      t1.all noHx = true ∧ t2.all noHx = true := by
  have hsc : status_change e sid st env =
      updS e sid (fun s => { s with pid := -1, exit_status := st }) := by
    unfold status_change
    dsimp only
    rw [if_pos]
    rw [getS_updS_self _ _ _ h1]
    exact h2
  rw [hsc]
  unfold fd_event
  dsimp only
  rw [if_neg (by omega : ¬ env.pipe_r > 0)]
  have hlen2 : sid < (updS (updS e sid (fun s =>
      { s with pid := -1, exit_status := st })) sid (fun s =>
      { s with waiting_for_execstat := false })).svcs.length := by
    rw [len_updS, len_updS]; exact h1
  have hpde2 : pde (updS (updS e sid (fun s =>
      { s with pid := -1, exit_status := st })) sid (fun s =>
      { s with waiting_for_execstat := false })) sid = (-1, st) := by
    simp [pde, getS_updS, len_updS, h1]
  split
  · -- PROCESS in STARTING: started() runs first
    have hpde3 : pde (started (updS (updS e sid (fun s =>
        { s with pid := -1, exit_status := st })) sid (fun s =>
        { s with waiting_for_execstat := false })) sid) sid = (-1, st) := by
      rw [pde_started]; exact hpde2
    have hp3 : (getS (started (updS (updS e sid (fun s =>
        { s with pid := -1, exit_status := st })) sid (fun s =>
        { s with waiting_for_execstat := false })) sid) sid).pid = -1 :=
      congrArg Prod.fst hpde3
    have hx3 : (getS (started (updS (updS e sid (fun s =>
        { s with pid := -1, exit_status := st })) sid (fun s =>
        { s with waiting_for_execstat := false })) sid) sid).exit_status = st :=
      congrArg Prod.snd hpde3
    rw [if_pos hp3, hx3]
    obtain ⟨t0, ht0, ha0⟩ := HFree_started (updS (updS e sid (fun s =>
      { s with pid := -1, exit_status := st })) sid (fun s =>
      { s with waiting_for_execstat := false })) sid
    obtain ⟨t, ht, ha⟩ := hexit_decomp (started (updS (updS e sid (fun s =>
      { s with pid := -1, exit_status := st })) sid (fun s =>
      { s with waiting_for_execstat := false })) sid) sid st env
    refine ⟨t0, t ++ [ev.pq], ?_, ha0, by simp_all [List.all_append, noHx]⟩
    rw [trace_emit, ht, ht0, trace_updS, trace_updS]
    simp
  · -- exec succeeded, not the started() path
    have hp2 : (getS (updS (updS e sid (fun s =>
        { s with pid := -1, exit_status := st })) sid (fun s =>
        { s with waiting_for_execstat := false })) sid).pid = -1 :=
      congrArg Prod.fst hpde2
    have hx2 : (getS (updS (updS e sid (fun s =>
        { s with pid := -1, exit_status := st })) sid (fun s =>
        { s with waiting_for_execstat := false })) sid).exit_status = st :=
      congrArg Prod.snd hpde2
    rw [if_pos hp2, hx2]
    obtain ⟨t, ht, ha⟩ := hexit_decomp (updS (updS e sid (fun s =>
      { s with pid := -1, exit_status := st })) sid (fun s =>
      { s with waiting_for_execstat := false })) sid st env
    refine ⟨[], t ++ [ev.pq], ?_, rfl, by simp_all [List.all_append, noHx]⟩
    rw [trace_emit, ht, trace_updS, trace_updS]
    simp

/-! # Frame lemmas for the prop_require / prop_release pair (claim C4) -/

theorem prb_updS (e : engine) (i sid : Nat) (f : sstate → sstate)
    (hf : ∀ s, (f s).prop_require = s.prop_require ∧ (f s).prop_release = s.prop_release) :
    prb (updS e i f) sid = prb e sid := by
  simp only [prb, getS_updS]
  split
  · next h => obtain ⟨rfl, -⟩ := h; rw [(hf _).1, (hf _).2]
  · rfl

theorem prb_emit (e : engine) (v : ev) (sid : Nat) : prb (emit e v) sid = prb e sid := by
  simp [prb, getS_emit]

theorem prb_queues (e : engine) (i sid : Nat) :
    prb (addToPropQueue e i) sid = prb e sid ∧
    prb (addToStartQueue e i) sid = prb e sid ∧
    prb (addToStopQueue e i) sid = prb e sid := by
  refine ⟨?_, ?_, ?_⟩ <;>
    simp [prb, getS_addToPropQueue, getS_addToStartQueue, getS_addToStopQueue]

theorem prb_notifyListeners (e : engine) (i sid : Nat) (v : service_event) :
    prb (notifyListeners e i v) sid = prb e sid := by
  unfold notifyListeners
  exact prb_emit _ _ sid

theorem prb_console (e : engine) (i sid : Nat) :
    prb (queue_for_console e i) sid = prb e sid ∧
    prb (release_console e) sid = prb e sid ∧
    prb (unqueue_console e i) sid = prb e sid := by
  refine ⟨?_, ?_, ?_⟩ <;>
    simp [prb, getS_queue_for_console, getS_release_console, getS_unqueue_console]

theorem prb_forceStop (e : engine) (i sid : Nat) :
    prb (forceStop e i) sid = prb e sid := by
  unfold forceStop
  split
  · rw [(prb_queues _ _ _).2.2]
    exact prb_updS _ _ _ _ (fun s => ⟨rfl, rfl⟩)
  · rfl

theorem prb_stopDependents (e : engine) (i sid : Nat) :
    prb (stopDependents e i).1 sid = prb e sid := by
  unfold stopDependents
  refine foldl_inv (P := fun (p : engine × Bool) => prb p.1 sid = prb e sid) ?_ _ _ rfl
  intro a b ha
  dsimp only
  rw [(prb_queues _ _ _).1]
  refine Eq.trans (prb_updS _ _ _ _ (fun s => ⟨rfl, rfl⟩)) ?_
  split
  · rw [prb_forceStop]; exact ha
  · exact ha

theorem prb_interrupt_start (e : engine) (i sid : Nat) :
    prb (interrupt_start e i) sid = prb e sid := by
  unfold interrupt_start
  split
  · exact (prb_console _ _ _).2.2
  · split
    · rw [(prb_console _ _ _).2.2]
      exact prb_updS _ _ _ _ (fun s => ⟨rfl, rfl⟩)
    · exact (prb_console _ _ _).2.2

theorem prb_do_stop_rest (e : engine) (i sid : Nat) :
    prb (do_stop_rest e i) sid = prb e sid := by
  unfold do_stop_rest
  dsimp only
  repeat' split
  all_goals
    repeat
      first
      | rw [(prb_queues _ _ _).2.2]
      | rw [prb_stopDependents]
      | rw [prb_interrupt_start]
      | rw [prb_notifyListeners]
      | refine Eq.trans (prb_updS _ _ _ _ (by intro s; exact ⟨rfl, rfl⟩)) ?_
      | rfl

/-- do_stop invoked on a record whose reference count is already zero does
not touch the require/release propagation bits: the inner release merely
drives the count negative. -/
theorem prb_do_stop_rby0 (e : engine) (sid : Nat) (h1 : sid < e.svcs.length)
    (h0 : (getS e sid).required_by = 0) :
    prb (do_stop e sid) sid = prb e sid := by
  unfold do_stop
  dsimp only
  split
  · exact prb_emit _ _ sid
  · split
    · unfold release_inner release_gen
      dsimp only
      split
      · next hcond =>
          exfalso
          simp [getS_updS, getS_emit, len_updS, svcs_emit, h1, h0] at hcond
      · rw [prb_do_stop_rest]
        refine Eq.trans (prb_updS _ _ _ _ (by intro s; exact ⟨rfl, rfl⟩)) ?_
        rw [prb_emit]
        refine Eq.trans (prb_updS _ _ _ _ (by intro s; exact ⟨rfl, rfl⟩)) ?_
        rw [prb_emit]
    · rw [prb_do_stop_rest, prb_emit]

theorem prb_counters (e : engine) (sid : Nat) :
    prb (service_active e) sid = prb e sid ∧
    prb (service_inactive e) sid = prb e sid := by
  constructor <;> simp [prb, getS_service_active, getS_service_inactive]

theorem contains_addToPropQueue (e : engine) (i : Nat) :
    (addToPropQueue e i).prop_queue.contains i = true := by
  unfold addToPropQueue
  split
  · next h => exact h
  · simp

theorem len_require (e : engine) (i : Nat) :
    (require e i).svcs.length = e.svcs.length := by
  unfold require
  dsimp only
  split <;> simp [len_updS, svcs_emit, svcs_addToPropQueue]

/-- C4: `require()` increments `required_by`; on the 0→1 transition it sets
`prop_require` and enqueues the record on the propagate queue, except that
a pending `prop_release` cancels against it (neither bit remains set); and,
symmetrically, a 0→1 `require()` followed by a `release()` back to zero —
both before the propagate queue runs — leaves neither bit set. -/
theorem require_release_cancellation (e : engine) (sid : Nat)
    (h1 : sid < e.svcs.length) :
    (getS (require e sid) sid).required_by = (getS e sid).required_by + 1 ∧
    ((getS e sid).required_by = 0 → (getS e sid).prop_release = false →
      prb (require e sid) sid = (true, false) ∧
      (require e sid).prop_queue.contains sid = true) ∧
    ((getS e sid).required_by = 0 → (getS e sid).prop_release = true →
      prb (require e sid) sid = (false, false)) ∧
    ((getS e sid).required_by = 0 → (getS e sid).prop_release = false →
      prb (release (require e sid) sid) sid = (false, false)) := by
  have hlenR : (require e sid).svcs.length = e.svcs.length := len_require e sid
  refine ⟨?_, ?_, ?_, ?_⟩
  · unfold require
    dsimp only
    split <;>
      simp [getS_updS, getS_emit, getS_addToPropQueue, len_updS, svcs_emit, h1]
  · intro h0 hrel
    constructor
    · unfold require
      dsimp only
      rw [if_pos (by rw [getS_emit]; exact h0)]
      simp [prb, getS_updS, getS_emit, getS_addToPropQueue, len_updS, svcs_emit,
        h1, hrel]
    · unfold require
      dsimp only
      rw [if_pos (by rw [getS_emit]; exact h0)]
      exact contains_addToPropQueue _ sid
  · intro h0 hrel
    unfold require
    dsimp only
    rw [if_pos (by rw [getS_emit]; exact h0)]
    simp [prb, getS_updS, getS_emit, getS_addToPropQueue, len_updS, svcs_emit,
      h1, hrel]
  · intro h0 hrel
    have hR_rby : (getS (require e sid) sid).required_by = 1 := by
      unfold require
      dsimp only
      rw [if_pos (by rw [getS_emit]; exact h0)]
      simp [getS_updS, getS_emit, getS_addToPropQueue, len_updS, svcs_emit, h1, h0]
    have hR_pr : (getS (require e sid) sid).prop_require = true := by
      unfold require
      dsimp only
      rw [if_pos (by rw [getS_emit]; exact h0)]
      simp [getS_updS, getS_emit, getS_addToPropQueue, len_updS, svcs_emit, h1, hrel]
    unfold release release_gen
    dsimp only
    rw [if_pos (by
      simp [getS_updS, getS_emit, len_updS, svcs_emit, hlenR, h1, hR_rby])]
    unfold release_tail
    dsimp only
    have hprb4 : prb (addToPropQueue (updS (updS (updS (emit (require e sid)
        (ev.rel sid)) sid (fun s => { s with required_by := s.required_by - 1 })) sid
        (fun s => { s with desired_state := service_state_t.STOPPED })) sid
        (fun s => { s with prop_release := !s.prop_require, prop_require := false }))
        sid) sid = (false, false) := by
      simp [prb, getS_updS, getS_addToPropQueue, getS_emit, len_updS, svcs_emit,
        hlenR, h1, hR_pr]
    split
    · rw [(prb_counters _ _).2]
      exact hprb4
    · rw [prb_do_stop_rby0]
      · exact hprb4
      · simp [len_updS, svcs_emit, svcs_addToPropQueue, hlenR, h1]
      · simp [getS_updS, getS_addToPropQueue, getS_emit, len_updS, svcs_emit,
          hlenR, h1, hR_rby]

/-- C7: double activation is absorbed — two successive start(true) calls
from a state with no activation leave required_by at exactly 1, with
start_explicit set (the second call does not invoke require() again). -/
theorem start_twice_absorbed (e : engine) (sid : Nat)
    (h1 : sid < e.svcs.length) (h2 : (getS e sid).required_by = 0)
    (h3 : (getS e sid).start_explicit = false) :
    (getS (start (start e sid true) sid true) sid).required_by = 1 ∧
    (getS (start (start e sid true) sid true) sid).start_explicit = true := by
  have A := start_rbsx_act e sid h1 h3
  have hx : (getS (start e sid true) sid).start_explicit = true := by
    have h := congrArg Prod.snd A
    simpa [rbsx] using h
  have B := start_rbsx_noact (start e sid true) sid true hx
  have hfinal : rbsx (start (start e sid true) sid true) sid = (1, true) := by
    rw [B, A, h2]
    norm_num
  constructor
  · have h := congrArg Prod.fst hfinal
    simpa [rbsx] using h
  · have h := congrArg Prod.snd hfinal
    simpa [rbsx] using h

/-! # Claim C5: the phase structure of do_propagation -/

theorem sdeps_require (e : engine) (i sid : Nat) :
    (getS (require e i) sid).soft_deps = (getS e sid).soft_deps := by
  unfold require
  dsimp only
  by_cases hlt : i < e.svcs.length
  · by_cases heq : i = sid
    · subst heq
      split <;>
        simp [getS_addToPropQueue, getS_updS, getS_emit, len_updS, svcs_emit, hlt]
    · split <;>
        simp [getS_addToPropQueue, getS_updS, getS_emit, len_updS, svcs_emit, heq]
  · split <;>
      simp [getS_addToPropQueue, getS_updS, getS_emit, len_updS, svcs_emit, hlt]

theorem len_req_soft_step (e : engine) (i sid : Nat) :
    (req_soft_step sid e i).svcs.length = e.svcs.length := by
  unfold req_soft_step
  dsimp only
  rw [len_updS, len_require]

theorem sdeps_req_soft_step (e : engine) (i sid : Nat) (h : sid < e.svcs.length) :
    (getS (req_soft_step sid e i) sid).soft_deps =
      (getS e sid).soft_deps.set i
        { (getS e sid).soft_deps.getD i default with holding_acq := true } := by
  unfold req_soft_step
  dsimp only
  rw [getS_updS_self]
  · dsimp only
    rw [sdeps_require]
  · rw [len_require]
    exact h

/-- After folding `req_soft_step` over a list of edge indices, every edge
whose index is in the list (and in range), and every edge already holding
an acquisition, holds an acquisition. -/
theorem req_soft_marks (sid : Nat) : ∀ (l : List Nat) (e : engine),
    sid < e.svcs.length → ∀ j : Nat,
    ((j ∈ l ∧ j < (getS e sid).soft_deps.length) ∨
      ((getS e sid).soft_deps.getD j default).holding_acq = true) →
    ((getS (l.foldl (req_soft_step sid) e) sid).soft_deps.getD j
      default).holding_acq = true := by
  intro l
  induction l with
  | nil =>
    intro e hlen j hj
    rcases hj with ⟨hmem, -⟩ | hh
    · exact absurd hmem (List.not_mem_nil j)
    · exact hh
  | cons i l ih =>
    intro e hlen j hj
    rw [List.foldl_cons]
    have hlen' : sid < (req_soft_step sid e i).svcs.length := by
      rw [len_req_soft_step]; exact hlen
    have hsd := sdeps_req_soft_step e i sid hlen
    refine ih (req_soft_step sid e i) hlen' j ?_
    rcases hj with ⟨hmem, hlt⟩ | hh
    · rcases List.mem_cons.mp hmem with rfl | hmem'
      · right
        rw [hsd, List.getD_eq_getElem?_getD, List.getElem?_set_self',
          List.getElem?_eq_getElem (by simpa using hlt)]
        rfl
      · left
        refine ⟨hmem', ?_⟩
        rw [hsd, List.length_set]
        exact hlt
    · by_cases hij : i = j
      · subst hij
        by_cases hilt : i < (getS e sid).soft_deps.length
        · right
          rw [hsd, List.getD_eq_getElem?_getD, List.getElem?_set_self',
            List.getElem?_eq_getElem (by simpa using hilt)]
          rfl
        · right
          rw [hsd, List.set_eq_of_length_le (Nat.le_of_not_lt (by simpa using hilt))]
          exact hh
      · right
        rw [hsd, List.getD_eq_getElem?_getD, List.getElem?_set_ne hij]
        rw [List.getD_eq_getElem?_getD] at hh
        exact hh

/-- C5: do_propagation consumes the sticky propagation bits in exactly the
claimed order — it is the composition of the five claim-worded phases
(prop_require, then prop_release, then prop_failure, then prop_start, then
prop_stop); moreover the require phase clears prop_require and marks every
soft-dependency edge holding_acq, and the release phase clears
prop_release. -/
theorem do_propagation_phase_order (e : engine) (sid : Nat)
    (h : sid < e.svcs.length) :
    do_propagation e sid =
      prop_stop_phase (prop_start_phase (prop_failure_phase
        (prop_release_phase (prop_require_phase e sid) sid) sid) sid) sid ∧
    ((getS e sid).prop_require = true →
      (getS (prop_require_phase e sid) sid).prop_require = false ∧
      ∀ j : Nat, j < (getS e sid).soft_deps.length →
        ((getS (prop_require_phase e sid) sid).soft_deps.getD j
          default).holding_acq = true) ∧
    ((getS e sid).prop_release = true →
      sid < (release_dependencies e sid).svcs.length →
      (getS (prop_release_phase e sid) sid).prop_release = false) := by
  refine ⟨?_, ?_, ?_⟩
  · unfold do_propagation prop_require_phase prop_release_phase
      prop_failure_phase prop_start_phase prop_stop_phase
    rfl
  · intro hreq
    unfold prop_require_phase
    rw [if_pos hreq]
    have hinv : (getS ((getS e sid).depends_on.foldl
          (fun e d => require e d) e) sid).soft_deps = (getS e sid).soft_deps ∧
        ((getS e sid).depends_on.foldl
          (fun e d => require e d) e).svcs.length = e.svcs.length := by
      refine foldl_inv
        (P := fun a => (getS a sid).soft_deps = (getS e sid).soft_deps ∧
          a.svcs.length = e.svcs.length)
        ?_ (getS e sid).depends_on e ⟨rfl, rfl⟩
      intro a b hab
      exact ⟨(sdeps_require a b sid).trans hab.1, (len_require a b).trans hab.2⟩
    have hlen1 : sid < ((getS e sid).depends_on.foldl
        (fun e d => require e d) e).svcs.length := by
      rw [hinv.2]; exact h
    have hlen2 : sid < ((List.range (getS ((getS e sid).depends_on.foldl
          (fun e d => require e d) e) sid).soft_deps.length).foldl
          (req_soft_step sid)
          ((getS e sid).depends_on.foldl (fun e d => require e d) e)).svcs.length := by
      refine foldl_inv (P := fun a : engine => sid < a.svcs.length) ?_ _ _ hlen1
      intro a b hab
      rw [len_req_soft_step]; exact hab
    constructor
    · rw [getS_updS_self _ _ _ hlen2]
    · intro j hj
      rw [getS_updS_self _ _ _ hlen2]
      show ((getS ((List.range _).foldl (req_soft_step sid) _) sid).soft_deps.getD
        j default).holding_acq = true
      refine req_soft_marks sid _ _ hlen1 j (Or.inl ⟨?_, ?_⟩)
      · exact List.mem_range.mpr (by rw [hinv.1]; exact hj)
      · rw [hinv.1]; exact hj
  · intro hrel hlen
    unfold prop_release_phase
    rw [if_pos hrel, getS_updS_self _ _ _ hlen]

/-! # Trace decomposition of the three scripted outcomes (claim C8) -/

theorem HFree_stopped_from_emit (e : engine) (i : Nat) :
    HFree (emit e (ev.stpd i)) (stopped e i) := by
  unfold stopped
  dsimp only
  generalize emit e (ev.stpd i) = E
  repeat' split
  all_goals
    repeat
      first
      | refine HFree.trans ?_ (HFree_notifyListeners _ _ _)
      | refine HFree.trans ?_ (HFree_start _ _ _)
      | refine HFree.trans ?_ (HFree_release _ _)
      | refine HFree.trans ?_ (HFree_counters _).2
      | refine HFree.trans ?_ (HFree_updS _ _ _)
      | refine HFree.trans ?_ (HFree_stopped_signal_deps _ _)
      | refine HFree.trans ?_ (HFree_stopped_soft_release _ _)
      | refine HFree.trans ?_ (HFree_release_console _)
      | refine HFree.trans ?_ (HFree_emit _ _ rfl)
      | exact HFree.refl _

theorem stpd_decomp (e : engine) (i : Nat) :
    ∃ t, (stopped e i).trace = e.trace ++ ev.stpd i :: t ∧ t.all noHx = true := by
  obtain ⟨t, ht, ha⟩ := HFree_stopped_from_emit e i
  exact ⟨t, by rw [ht, trace_emit]; simp, ha⟩

theorem HFree_started_from_emit (e : engine) (i : Nat) :
    HFree (emit e (ev.strtd i)) (started e i) := by
  unfold started
  dsimp only
  generalize emit e (ev.strtd i) = E
  repeat' split
  all_goals
    repeat
      first
      | refine HFree.trans ?_ (HFree_started_wake_dependents _ _)
      | refine HFree.trans ?_ (HFree_do_stop _ _)
      | refine HFree.trans ?_ (HFree_notifyListeners _ _ _)
      | refine HFree.trans ?_ (HFree_updS _ _ _)
      | refine HFree.trans ?_ (HFree_release_console _)
      | refine HFree.trans ?_ (HFree_emit _ _ rfl)
      | exact HFree.refl _

theorem strtd_decomp (e : engine) (i : Nat) :
    ∃ t, (started e i).trace = e.trace ++ ev.strtd i :: t ∧ t.all noHx = true := by
  obtain ⟨t, ht, ha⟩ := HFree_started_from_emit e i
  exact ⟨t, by rw [ht, trace_emit]; simp, ha⟩

theorem HFree_fts_from_emit (e : engine) (i : Nat) (depfailed : Bool) :
    HFree (emit e (ev.fts i depfailed)) (failed_to_start e i depfailed) := by
  unfold failed_to_start
  dsimp only
  generalize emit e (ev.fts i depfailed) = E
  repeat' split
  all_goals
    repeat
      first
      | refine HFree.trans ?_ (HFree_fts_wake_soft _ _)
      | refine HFree.trans ?_ (HFree_fts_fail_dependents _ _)
      | refine HFree.trans ?_ (HFree_notifyListeners _ _ _)
      | refine HFree.trans ?_ (HFree_release _ _)
      | refine HFree.trans ?_ (HFree_updS _ _ _)
      | refine HFree.trans ?_ (HFree_release_console _)
      | refine HFree.trans ?_ (HFree_emit _ _ rfl)
      | exact HFree.refl _

theorem fts_decomp (e : engine) (i : Nat) (d : Bool) :
    ∃ t, (failed_to_start e i d).trace = e.trace ++ ev.fts i d :: t ∧
      t.all noHx = true := by
  obtain ⟨t, ht, ha⟩ := HFree_fts_from_emit e i d
  exact ⟨t, by rw [ht, trace_emit]; simp, ha⟩

/-- C8: for a SCRIPTED service, handle_exit_status in STOPPING reaches
stopped() for every exit status of the stop command — a failing status is
logged first but never blocks the stop — while in STARTING, status 0 leads
to started() and any other status leads to failed_to_start(). -/
theorem scripted_exit_semantics (e : engine) (sid status : Nat) :
    ((getS e sid).service_state = service_state_t.STOPPING →
      ∃ t1 t2, (scripted_handle_exit_status e sid status).trace =
          e.trace ++ t1 ++ ev.stpd sid :: t2 ∧
        (t1 = [] ∨ t1 = [ev.logMsg sid]) ∧
        (¬(WIFEXITED status = true ∧ WEXITSTATUS status = 0) →
          (WIFEXITED status = true ∨ WIFSIGNALED status = true) →
          t1 = [ev.logMsg sid])) ∧
    ((getS e sid).service_state = service_state_t.STARTING → status = 0 →
      ∃ t, (scripted_handle_exit_status e sid status).trace =
        e.trace ++ ev.strtd sid :: t) ∧
    ((getS e sid).service_state = service_state_t.STARTING → status ≠ 0 →
      ∃ t1 t2, (scripted_handle_exit_status e sid status).trace =
          e.trace ++ t1 ++ ev.fts sid false :: t2 ∧
        (t1 = [] ∨ t1 = [ev.logMsg sid]) ∧
        ((WIFEXITED status = true ∨ WIFSIGNALED status = true) →
          t1 = [ev.logMsg sid])) := by
  refine ⟨?_, ?_, ?_⟩
  · intro hstop
    unfold scripted_handle_exit_status
    dsimp only
    rw [if_pos hstop]
    split
    · next hok =>
      obtain ⟨t, ht, -⟩ := stpd_decomp e sid
      refine ⟨[], t ++ [ev.pq], ?_, Or.inl rfl, fun hne _ => absurd hok hne⟩
      rw [trace_emit, ht]
      simp
    · split
      · obtain ⟨t, ht, -⟩ := stpd_decomp (emit e (ev.logMsg sid)) sid
        refine ⟨[ev.logMsg sid], t ++ [ev.pq], ?_, Or.inr rfl, fun _ _ => rfl⟩
        rw [trace_emit, ht, trace_emit]
        simp
      · next hno =>
        obtain ⟨t, ht, -⟩ := stpd_decomp e sid
        refine ⟨[], t ++ [ev.pq], ?_, Or.inl rfl, fun _ hor => absurd hor hno⟩
        rw [trace_emit, ht]
        simp
  · intro hstart hzero
    unfold scripted_handle_exit_status
    dsimp only
    rw [if_neg (by rw [hstart]; exact fun hc => by cases hc), if_pos hzero]
    obtain ⟨t, ht, -⟩ := strtd_decomp e sid
    refine ⟨t ++ [ev.pq], ?_⟩
    rw [trace_emit, ht]
    simp
  · intro hstart hnz
    unfold scripted_handle_exit_status
    dsimp only
    rw [if_neg (by rw [hstart]; exact fun hc => by cases hc), if_neg hnz]
    split
    · obtain ⟨t, ht, -⟩ := fts_decomp (emit e (ev.logMsg sid)) sid false
      refine ⟨[ev.logMsg sid], t ++ [ev.pq], ?_, Or.inr rfl, fun _ => rfl⟩
      rw [trace_emit, ht, trace_emit]
      simp
    · next hno =>
      obtain ⟨t, ht, -⟩ := fts_decomp e sid false
      refine ⟨[], t ++ [ev.pq], ?_, Or.inl rfl, fun hor => absurd hor hno⟩
      rw [trace_emit, ht]
      simp

/-! # Restart-delay boundary (claim C6) -/

theorem HFree_do_restart_from_emit (e : engine) (i : Nat) (env : osEnv) :
    HFree (emit e (ev.dorestart i)) (do_restart e i env) := by
  unfold do_restart
  dsimp only
  generalize emit e (ev.dorestart i) = E
  repeat' split
  all_goals
    repeat
      first
      | refine HFree.trans ?_ (HFree_start_ps_process_cmd _ _ env)
      | refine HFree.trans ?_ (HFree_failed_to_start _ _ _)
      | refine HFree.trans ?_ (HFree_forceStop _ _)
      | refine HFree.trans ?_ (HFree_updS _ _ _)
      | refine HFree.trans ?_ (HFree_emit _ _ rfl)
      | exact HFree.refl _

theorem dorestart_decomp (e : engine) (i : Nat) (env : osEnv) :
    ∃ t, (do_restart e i env).trace = e.trace ++ ev.dorestart i :: t := by
  obtain ⟨t, ht, -⟩ := HFree_do_restart_from_emit e i env
  exact ⟨t, by rw [ht, trace_emit]; simp⟩

/-- C6 (amended): once the rate-limit check of restart_ps_process passes,
do_restart runs immediately exactly when (now − last_start_time) is
STRICTLY greater than restart_delay; when the elapsed time is ≤
restart_delay — the exact-equality boundary included — the restart timer
is armed for the remaining delay (zero at the boundary) and
waiting_restart_timer is set, and the call still reports success. -/
theorem restart_delay_boundary (e : engine) (sid : Nat) (env : osEnv)
    (h : sid < e.svcs.length)
    (hrate : ¬((getS e sid).max_restart_interval_count ≠ 0 ∧
      env.now - (getS e sid).restart_interval_time < (getS e sid).restart_interval ∧
      (getS e sid).restart_interval_count ≥ (getS e sid).max_restart_interval_count)) :
    ((getS e sid).restart_delay < env.now - (getS e sid).last_start_time →
      ∃ t, (restart_ps_process e sid env).1.trace =
          e.trace ++ ev.dorestart sid :: t ∧
        (restart_ps_process e sid env).2 = true) ∧
    (env.now - (getS e sid).last_start_time ≤ (getS e sid).restart_delay →
      (restart_ps_process e sid env).1.trace =
        e.trace ++ [ev.armTimer sid ((getS e sid).restart_delay -
          (env.now - (getS e sid).last_start_time))] ∧
      (getS (restart_ps_process e sid env).1 sid).waiting_restart_timer = true ∧
      (restart_ps_process e sid env).2 = true) := by
  unfold restart_ps_process
  dsimp only
  rw [if_neg hrate]
  by_cases hw : (getS e sid).max_restart_interval_count ≠ 0 ∧
      ¬ (env.now - (getS e sid).restart_interval_time < (getS e sid).restart_interval)
  · rw [if_pos hw]
    rw [getS_updS_self _ _ _ h]
    dsimp only
    split
    · next h2 =>
      constructor
      · intro _
        obtain ⟨t, ht⟩ := dorestart_decomp (updS e sid (fun s =>
          { s with restart_interval_time := env.now,
                   restart_interval_count := 0 })) sid env
        refine ⟨t, ?_, rfl⟩
        show (do_restart _ sid env).trace = _
        rw [ht, trace_updS]
      · intro hle
        exact absurd h2 (not_lt.mpr hle)
    · next h2 =>
      constructor
      · intro hlt
        exact absurd hlt h2
      · intro hle
        refine ⟨?_, ?_, rfl⟩
        · show (updS _ sid _).trace = _
          rw [trace_updS, trace_emit, trace_updS]
        · rw [getS_updS_self]
          · rw [svcs_emit, len_updS]
            exact h
  · rw [if_neg hw]
    split
    · next h2 =>
      constructor
      · intro _
        obtain ⟨t, ht⟩ := dorestart_decomp e sid env
        refine ⟨t, ?_, rfl⟩
        show (do_restart _ sid env).trace = _
        rw [ht]
      · intro hle
        exact absurd h2 (not_lt.mpr hle)
    · next h2 =>
      constructor
      · intro hlt
        exact absurd hlt h2
      · intro hle
        refine ⟨?_, ?_, rfl⟩
        · show (updS _ sid _).trace = _
          rw [trace_updS, trace_emit]
        · rw [getS_updS_self]
          · rw [svcs_emit]
            exact h

set_option allowUnsafeReducibility true in
attribute [semireducible] emit updS setS addToPropQueue addToStartQueue
  addToStopQueue service_active service_inactive queue_for_console
  release_console unqueue_console forceStop dependentStopped
  dependencyStarted require notifyListeners stopCheckDependents
  stopDependents interrupt_start do_stop_rest do_stop_noexp release_tail
  release_gen release_inner do_stop release release_dependencies
  startCheckDeps_hardT startCheckDeps_softT startCheckDependenciesT
  startCheckDeps_softF startCheckDependenciesF start_core start
  stopped_soft_release stopped_signal_deps stopped started_wake_dependents
  started fts_fail_dependents fts_wake_soft failed_to_start emergency_stop
  open_socket start_ps_process_cmd do_restart restart_ps_process
  start_ps_process allDepsStarted process_handle_exit_status read_pid_file
  scripted_handle_exit_status handle_exit_status
  status_change fd_event base_process_all_deps_stopped
  scripted_all_deps_stopped all_deps_stopped execute_transition
  do_propagation req_soft_step prop_require_phase prop_release_phase
  prop_failure_phase prop_start_phase prop_stop_phase

/-! # Concrete claim theorems, counterexamples and witnesses -/

/-- C1: with the activation-socket bind failing, allDepsStarted calls
failed_to_start() AND still runs start_ps_process(), which forks a child
(pid 5) into a record already marked STOPPED — the claimed gating of the
start sequence does not hold in the code. -/
theorem allDepsStarted_fork_after_socket_failure :
    ev.fts 0 false ∈ (allDepsStarted c1eng 0 false c1env).trace ∧
    ev.forkEv 0 5 ∈ (allDepsStarted c1eng 0 false c1env).trace ∧
    (getS (allDepsStarted c1eng 0 false c1env) 0).pid = 5 ∧
    (getS (allDepsStarted c1eng 0 false c1env) 0).service_state =
      service_state_t.STOPPED := by
  decide

/-- C2: a BGPROCESS whose child is reaped by the waitpid poll inside
all_deps_stopped finishes the stop transition STOPPED while its stale pid
is still recorded — the claimed STOPPED → pid = −1 invariant fails. -/
theorem bgproc_stale_pid_when_stopped :
    (getS (run_queues (do_stop c2eng 0) c2env 10) 0).service_state =
      service_state_t.STOPPED ∧
    (getS (run_queues (do_stop c2eng 0) c2env 10) 0).pid = 100 := by
  decide

/-- C3 counterexample: when the exec-status pipe reports an exec failure,
the pipe handler observes pid = −1 and a stored status yet never calls
handle_exit_status — the stored exit is dispatched zero times, not exactly
once as the claim words it for every child that exits before the pipe
event. -/
theorem child_exit_not_replayed_cex :
    (getS (status_change c3eng 0 256 c3envF) 0).pid = -1 ∧
    (fd_event (status_change c3eng 0 256 c3envF) 0 c3envF).trace.countP
      (fun v => ! noHx v) = 0 := by
  decide

/-- C3 witness: the amended replay property at a concrete forked PROCESS
record, exit status 256, with the pipe reporting exec success. -/
theorem child_exit_replayed_once_witness :
    ∃ t1 t2, (fd_event (status_change c3eng 0 256 osEnv.ok) 0 osEnv.ok).trace =
        c3eng.trace ++ t1 ++ ev.hexit 0 256 :: t2 ∧
      t1.all noHx = true ∧ t2.all noHx = true :=
  child_exit_replayed_once c3eng 0 256 osEnv.ok (by decide) (by decide)
    (Or.inl (by decide)) (by decide)

/-- C4 witness: the require/release bookkeeping at a concrete inactive
record. -/
theorem require_release_cancellation_witness :
    (getS (require c47eng 0) 0).required_by = (getS c47eng 0).required_by + 1 ∧
    ((getS c47eng 0).required_by = 0 → (getS c47eng 0).prop_release = false →
      prb (require c47eng 0) 0 = (true, false) ∧
      (require c47eng 0).prop_queue.contains 0 = true) ∧
    ((getS c47eng 0).required_by = 0 → (getS c47eng 0).prop_release = true →
      prb (require c47eng 0) 0 = (false, false)) ∧
    ((getS c47eng 0).required_by = 0 → (getS c47eng 0).prop_release = false →
      prb (release (require c47eng 0) 0) 0 = (false, false)) :=
  require_release_cancellation c47eng 0 (by decide)

/-- C5 witness: the phase decomposition of do_propagation at a concrete
record with a pending require propagation, one hard and one soft
dependency. -/
theorem do_propagation_phase_order_witness :
    (do_propagation c5eng 0 =
      prop_stop_phase (prop_start_phase (prop_failure_phase
        (prop_release_phase (prop_require_phase c5eng 0) 0) 0) 0) 0) ∧
    ((getS c5eng 0).prop_require = true →
      (getS (prop_require_phase c5eng 0) 0).prop_require = false ∧
      ∀ j : Nat, j < (getS c5eng 0).soft_deps.length →
        ((getS (prop_require_phase c5eng 0) 0).soft_deps.getD j
          default).holding_acq = true) ∧
    ((getS c5eng 0).prop_release = true →
      0 < (release_dependencies c5eng 0).svcs.length →
      (getS (prop_release_phase c5eng 0) 0).prop_release = false) :=
  do_propagation_phase_order c5eng 0 (by decide)

/-- C6 counterexample: with now − last_start_time EQUAL to restart_delay
the code does not restart immediately — it arms the restart timer with a
zero timeout and sets waiting_restart_timer, so the claimed
"≥ restart_delay → do_restart immediately" fails at the boundary. -/
theorem restart_delay_boundary_cex :
    c6envEq.now - (getS c6eng 0).last_start_time ≥ (getS c6eng 0).restart_delay ∧
    (restart_ps_process c6eng 0 c6envEq).1.trace = [ev.armTimer 0 0] ∧
    (getS (restart_ps_process c6eng 0 c6envEq).1 0).waiting_restart_timer = true ∧
    (restart_ps_process c6eng 0 c6envEq).1.trace.countP
      (fun v => match v with | ev.dorestart _ => true | _ => false) = 0 := by
  decide

/-- C6 witness: the amended boundary behaviour at a concrete restarting
record whose elapsed time strictly exceeds the delay. -/
theorem restart_delay_boundary_witness :
    ((getS c6eng 0).restart_delay < c6envGt.now - (getS c6eng 0).last_start_time →
      ∃ t, (restart_ps_process c6eng 0 c6envGt).1.trace =
          c6eng.trace ++ ev.dorestart 0 :: t ∧
        (restart_ps_process c6eng 0 c6envGt).2 = true) ∧
    (c6envGt.now - (getS c6eng 0).last_start_time ≤ (getS c6eng 0).restart_delay →
      (restart_ps_process c6eng 0 c6envGt).1.trace =
        c6eng.trace ++ [ev.armTimer 0 ((getS c6eng 0).restart_delay -
          (c6envGt.now - (getS c6eng 0).last_start_time))] ∧
      (getS (restart_ps_process c6eng 0 c6envGt).1 0).waiting_restart_timer = true ∧
      (restart_ps_process c6eng 0 c6envGt).2 = true) :=
  restart_delay_boundary c6eng 0 c6envGt (by decide) (by decide)

/-- C7 witness: double explicit activation of a concrete inactive record
leaves required_by at exactly 1 with start_explicit set. -/
theorem start_twice_absorbed_witness :
    (getS (start (start c47eng 0 true) 0 true) 0).required_by = 1 ∧
    (getS (start (start c47eng 0 true) 0 true) 0).start_explicit = true :=
  start_twice_absorbed c47eng 0 (by decide) (by decide) (by decide)

/-- C9: a protocol-error or NOSERVICE reply to the load command makes
start_stop_service return exit status 0, not the claimed 1. -/
theorem ctl_load_failure_exit_zero :
    start_stop_service ctl_command.START_SERVICE true c9env = 0 ∧
    start_stop_service ctl_command.START_SERVICE true c9envNs = 0 := by
  decide

/-- C10: in unpin_service and unload_service the command buffer is
allocated with 1 + sizeof(handle) bytes while write_all is invoked with
2 + sizeof(handle) bytes from it — one byte past the end of the
allocation, for every handle size. -/
theorem unpin_unload_write_overrun (sh : Nat) :
    unpin_cmdbuf_size sh = 1 + sh ∧ unpin_write_len sh = 2 + sh ∧
    unload_cmdbuf_size sh = 1 + sh ∧ unload_write_len sh = 2 + sh ∧
    unpin_cmdbuf_size sh < unpin_write_len sh ∧
    unload_cmdbuf_size sh < unload_write_len sh := by
  refine ⟨rfl, rfl, rfl, rfl, ?_, ?_⟩ <;>
    simp [unpin_cmdbuf_size, unpin_write_len, unload_cmdbuf_size,
      unload_write_len]
